import Mathlib

/-!
# MemProcFS `vmm/vmmproc.c` : a shallow embedding

The development follows the four functions of `vmmproc.c`:

* `VmmProcPHYS_VerifyWindowsEPROCESS` : the physical-memory scan for the
  EPROCESS header of the `System` process,
* `VmmProcUserCR3TryInitialize64`, `VmmProc_RefreshProcesses`,
  `VmmProcInitialize` : process bootstrap and refresh,
* `VmmProcCacheUpdaterThread` : the periodic cache maintenance loop.

Machine integers are natural numbers reduced modulo `2^64` where the C code
can wrap.  Calls into other translation units are recorded as events; their
return values are supplied by an explicit record of external results.  The
process registry behind `VmmProcessCreateEntry`, `VmmProcessCreateFinish` and
`VmmProcessGet` lives in another file and is modelled from the specification.
-/

namespace VmmProc

/-! ## Machine arithmetic -/

/-- QWORD addition: unsigned 64-bit, wrapping. -/
def qadd (a b : Nat) : Nat := (a + b) % 2 ^ 64

/-- QWORD subtraction: unsigned 64-bit, wrapping. -/
def qsub (a b : Nat) : Nat := (a % 2 ^ 64 + 2 ^ 64 - b % 2 ^ 64) % 2 ^ 64

/-! ## Memory seen through the pointer `pb`

`pb` is modelled as the map from a signed byte offset `off` to the byte stored
at address `pb + off`.  The caller's buffer is the offsets `0 .. cb - 1`;
offsets outside that range are whatever happens to surround the buffer.
Every dereference is logged so that the set of bytes touched by a run can be
inspected. -/

/-- Bytes reachable from the base pointer, by signed offset. -/
abbrev Mem := Int → Nat

/-- The byte at `pb + off`. -/
def byteAt (pb : Mem) (off : Int) : Nat := pb off % 256

/-- Little-endian load `*(PDWORD)(pb + off)`. -/
def PDWORD (pb : Mem) (off : Int) : Nat :=
  byteAt pb off + byteAt pb (off + 1) * 2 ^ 8 + byteAt pb (off + 2) * 2 ^ 16
    + byteAt pb (off + 3) * 2 ^ 24

/-- Little-endian load `*(PQWORD)(pb + off)`. -/
def PQWORD (pb : Mem) (off : Int) : Nat :=
  PDWORD pb off + PDWORD pb (off + 4) * 2 ^ 32

/-- One dereference: `cb` bytes starting at offset `off`. -/
structure Access where
  off : Int
  cb : Nat
deriving DecidableEq, Repr

/-- A value together with the dereferences performed to compute it, in
program order. -/
abbrev Traced (α : Type) := α × List Access

/-- Perform `*(PQWORD)(pb + off)`, log it, and continue with the loaded value. -/
def readQ {α : Type} (pb : Mem) (off : Int) (k : Nat → Traced α) : Traced α :=
  ((k (PQWORD pb off)).1, ⟨off, 8⟩ :: (k (PQWORD pb off)).2)

/-- Perform `*(PDWORD)(pb + off)`, log it, and continue with the loaded value. -/
def readD {α : Type} (pb : Mem) (off : Int) (k : Nat → Traced α) : Traced α :=
  ((k (PDWORD pb off)).1, ⟨off, 4⟩ :: (k (PDWORD pb off)).2)

/-- The access lies inside the buffer `[0, cb)`. -/
def Access.inBounds (a : Access) (cb : Nat) : Prop :=
  0 ≤ a.off ∧ a.off + a.cb ≤ cb

instance (a : Access) (cb : Nat) : Decidable (a.inBounds cb) := by
  unfold Access.inBounds; exact inferInstance

/-! ## `VmmProcPHYS_VerifyWindowsEPROCESS` -/

/-- The `for(i = cbOffset; i > cbOffset - 0x500; i -= 8)` loop of
`VmmProcPHYS_VerifyWindowsEPROCESS`, entered with loop variable `i`.
The first argument bounds the number of loop tests; the result is `none`
when that bound is used up, `some none` for `return FALSE` after the loop and
`some (some pa)` for `*ppaPML4 = pa; return TRUE`. -/
def scanLoop (pb : Mem) (cbOffset : Nat) : Nat → Nat → Traced (Option (Option Nat))
  | 0, _ => (none, [])
  | fuel + 1, i =>
    if ¬ (i > qsub cbOffset 0x500) then (some none, [])
    else
      readQ pb ((i : Int) - 0x00) fun v0 =>
      if v0 &&& 0xfffff00000000000 ≠ 0 then scanLoop pb cbOffset fuel (qsub i 8) else
      readQ pb ((i : Int) - 0x00) fun v1 =>
      if v1 = 0 then scanLoop pb cbOffset fuel (qsub i 8) else
      readQ pb ((i : Int) - 0x08) fun p1 =>
      if p1 &&& 0xffff800000000000 ≠ 0xffff800000000000 then
        scanLoop pb cbOffset fuel (qsub i 8) else
      readQ pb ((i : Int) - 0x10) fun p2 =>
      if p2 &&& 0xffff800000000000 ≠ 0xffff800000000000 then
        scanLoop pb cbOffset fuel (qsub i 8) else
      readQ pb ((i : Int) - 0x18) fun p3 =>
      if p3 &&& 0xffff800000000000 ≠ 0xffff800000000000 then
        scanLoop pb cbOffset fuel (qsub i 8) else
      readQ pb ((i : Int) - 0x20) fun p4 =>
      if p4 &&& 0xffff800000000000 ≠ 0xffff800000000000 then
        scanLoop pb cbOffset fuel (qsub i 8) else
      readD pb ((i : Int) - 0x24) fun s =>
      if s ≠ 0x00000000 then scanLoop pb cbOffset fuel (qsub i 8) else
      readQ pb ((i : Int) - 0x00) fun v2 =>
      (some (some (v2 &&& 0xfffffffffffff000)), [])

/-- Number of loop tests granted to the scan: the window of `0x500` bytes in
steps of `8`, plus the final failing test. -/
def scanFuel : Nat := 0x500 / 8 + 1

/-- `BOOL VmmProcPHYS_VerifyWindowsEPROCESS(pb, cb, cbOffset, ppaPML4)`.
The result is `some none` for `return FALSE`, `some (some pa)` for
`return TRUE` with `*ppaPML4 = pa`, and `none` if the scan loop were to exceed
`scanFuel` tests.  `~0xfff` is the `int` `-4096` converted to QWORD, that is
`0xfffffffffffff000`. -/
def VmmProcPHYS_VerifyWindowsEPROCESS (pb : Mem) (cb cbOffset : Nat) :
    Traced (Option (Option Nat)) :=
  if cb < qadd cbOffset 8 then (some none, []) else
  if cb &&& 0x07 ≠ 0 ∨ cb < 0x500 ∨ cbOffset < 0x500 then (some none, []) else
  readQ pb (cbOffset : Int) fun sig =>
  if sig ≠ 0x00006D6574737953 then (some none, []) else
  readQ pb ((cbOffset : Int) + 8) fun pad =>
  if pad &&& 0x00ffffffffffffff ≠ 0 then (some none, []) else
  scanLoop pb cbOffset scanFuel cbOffset

/-- The `System\0\0` image-name signature as a little-endian QWORD. -/
def SYSTEM_SIGNATURE : Nat := 0x00006D6574737953

/-- The two entry `if`s of `VmmProcPHYS_VerifyWindowsEPROCESS` are both passed. -/
def entryChecks (cb cbOffset : Nat) : Prop :=
  ¬ (cb < qadd cbOffset 8) ∧ ¬ (cb &&& 0x07 ≠ 0 ∨ cb < 0x500 ∨ cbOffset < 0x500)

instance (cb cbOffset : Nat) : Decidable (entryChecks cb cbOffset) := by
  unfold entryChecks; exact inferInstance

/-- The two signature `if`s of `VmmProcPHYS_VerifyWindowsEPROCESS` are both
passed. -/
def signatureChecks (pb : Mem) (cbOffset : Nat) : Prop :=
  ¬ (PQWORD pb (cbOffset : Int) ≠ 0x00006D6574737953) ∧
  ¬ (PQWORD pb ((cbOffset : Int) + 8) &&& 0x00ffffffffffffff ≠ 0)

instance (pb : Mem) (cbOffset : Nat) : Decidable (signatureChecks pb cbOffset) := by
  unfold signatureChecks; exact inferInstance

/-- The loop body at position `i` reaches `return TRUE`: none of its seven
`continue` tests fires. -/
def headerAt (pb : Mem) (i : Nat) : Bool :=
  !(PQWORD pb ((i : Int) - 0x00) &&& 0xfffff00000000000 != 0) &&
  !(PQWORD pb ((i : Int) - 0x00) == 0) &&
  !(PQWORD pb ((i : Int) - 0x08) &&& 0xffff800000000000 != 0xffff800000000000) &&
  !(PQWORD pb ((i : Int) - 0x10) &&& 0xffff800000000000 != 0xffff800000000000) &&
  !(PQWORD pb ((i : Int) - 0x18) &&& 0xffff800000000000 != 0xffff800000000000) &&
  !(PQWORD pb ((i : Int) - 0x20) &&& 0xffff800000000000 != 0xffff800000000000) &&
  !(PDWORD pb ((i : Int) - 0x24) != 0x00000000)

/-- The structural predicate in the words of the specification: the QWORD at
`i` is non-zero with its top 20 bits zero, the QWORDs at `i-0x08`, `i-0x10`,
`i-0x18`, `i-0x20` each have their top 17 bits all set, and the DWORD at
`i-0x24` is zero. -/
def EprocessHeader (pb : Mem) (i : Nat) : Prop :=
  PQWORD pb (i : Int) ≠ 0 ∧ PQWORD pb (i : Int) / 2 ^ 44 = 0 ∧
  PQWORD pb ((i : Int) - 0x08) / 2 ^ 47 = 2 ^ 17 - 1 ∧
  PQWORD pb ((i : Int) - 0x10) / 2 ^ 47 = 2 ^ 17 - 1 ∧
  PQWORD pb ((i : Int) - 0x18) / 2 ^ 47 = 2 ^ 17 - 1 ∧
  PQWORD pb ((i : Int) - 0x20) / 2 ^ 47 = 2 ^ 17 - 1 ∧
  PDWORD pb ((i : Int) - 0x24) = 0

instance (pb : Mem) (i : Nat) : Decidable (EprocessHeader pb i) := by
  unfold EprocessHeader; exact inferInstance

/-! ### Test buffers -/

/-- The memory `m` with the QWORD `v` stored little-endian at offset `off`. -/
def pokeQ (m : Mem) (off : Int) (v : Nat) : Mem := fun a =>
  if off ≤ a ∧ a < off + 8 then v / 256 ^ (a - off).toNat % 256 else m a

/-- All-zero memory. -/
def zeroMem : Mem := fun _ => 0

/-- A buffer of `0x1000` bytes holding the `System` signature at `0x800` and an
EPROCESS-like header whose DirectoryTableBase (`0x001AA123`) sits at `0x600`. -/
def sampleMem : Mem :=
  pokeQ (pokeQ (pokeQ (pokeQ (pokeQ (pokeQ zeroMem
    0x800 0x00006D6574737953)
    0x600 0x001AA123)
    0x5f8 0xffff800000001000)
    0x5f0 0xfffff80012345678)
    0x5e8 0xffffffffffffffff)
    0x5e0 0xffff9a0000000000

/-- A buffer of `0x508` bytes with the signature in its last QWORD and an
EPROCESS-like header whose DirectoryTableBase sits at offset `0x20`. -/
def edgeMem : Mem :=
  pokeQ (pokeQ (pokeQ (pokeQ (pokeQ (pokeQ zeroMem
    0x500 0x00006D6574737953)
    0x20 0x001AA123)
    0x18 0xffff800000000000)
    0x10 0xffff800000000000)
    0x08 0xffff800000000000)
    0x00 0xffff800000000000

/-! ## Context and external calls

`Ctx` gathers the fields of `ctxMain` and `ctxVmm` that `vmmproc.c` reads or
writes.  Every call that leaves `vmmproc.c` is recorded as an `Event`, in
program order; what such a call returns is read from a `World` record.
Diagnostic printing is left out. -/

/-- Values of `ctxVmm->tpSystem` told apart by the code; any value other than
the three named in `vmmproc.c` is `VMM_SYSTEM_OTHER`. -/
inductive VMM_SYSTEM_TP
  | VMM_SYSTEM_OTHER
  | VMM_SYSTEM_UNKNOWN_X64
  | VMM_SYSTEM_WINDOWS_X64
  | VMM_SYSTEM_WINDOWS_X86
deriving DecidableEq, Repr

/-- Arguments given to `VmmInitializeMemoryModel`. -/
inductive VMM_MEMORYMODEL_TP
  | VMM_MEMORYMODEL_NA
  | VMM_MEMORYMODEL_X64
deriving DecidableEq, Repr

/-- Arguments given to `VmmCacheClear`. -/
inductive VMM_CACHE_TAG
  | VMM_CACHE_TAG_PHYS
  | VMM_CACHE_TAG_PAGING
  | VMM_CACHE_TAG_TLB
deriving DecidableEq, Repr

/-- Event kinds given to `PluginManager_Notify`. -/
inductive VMMDLL_PLUGIN_EVENT
  | VMMDLL_PLUGIN_EVENT_REFRESH_PROCESS_TOTAL
  | VMMDLL_PLUGIN_EVENT_REFRESH_REGISTRY
deriving DecidableEq, Repr

/-- The counters of `ctxVmm->stat` incremented in `vmmproc.c`. -/
inductive StatCounter
  | cProcessRefreshPartial
  | cProcessRefreshFull
  | cPhysRefreshCache
  | cPageRefreshCache
  | cTlbRefreshCache
deriving DecidableEq, Repr

/-- `ctxVmm->stat`. -/
structure Stat where
  cProcessRefreshPartial : Nat
  cProcessRefreshFull : Nat
  cPhysRefreshCache : Nat
  cPageRefreshCache : Nat
  cTlbRefreshCache : Nat
deriving DecidableEq, Repr

/-- `ctxVmm->ThreadProcCache`; `hThread = 0` is the NULL handle. -/
structure ThreadProcCache where
  fEnabled : Bool
  hThread : Nat
  cMs_TickPeriod : Nat
  cTick_Phys : Nat
  cTick_TLB : Nat
  cTick_ProcPartial : Nat
  cTick_ProcTotal : Nat
  cTick_Registry : Nat
deriving DecidableEq, Repr

/-- The fields of `ctxMain` (`cfg_*`, `dev_*`) and `ctxVmm` used by
`vmmproc.c`. -/
structure Ctx where
  cfg_paCR3 : Nat
  cfg_fDisableBackgroundRefresh : Bool
  dev_fRemote : Bool
  dev_fVolatile : Bool
  dev_fVolatileMaxAddress : Bool
  dev_paMax : Nat
  tpSystem : VMM_SYSTEM_TP
  kernel_paDTB : Nat
  ThreadProcCache : ThreadProcCache
  ThreadWorkers_fEnabled : Bool
  stat : Stat
deriving DecidableEq, Repr

/-- A call leaving `vmmproc.c`, with its arguments; pointers are numbers and
`0` is NULL.  `VmmProcUserCR3TryInitialize64` and `VmmProc_RefreshProcesses`
mark the entry into the function of that name.  The ten arguments of
`VmmProcessCreateEntry` are kept by position. -/
inductive Event
  | VmmProcUserCR3TryInitialize64
  | VmmProc_RefreshProcesses (fRefreshTotal : Bool)
  | VmmInitialize
  | VmmWinInit_TryInitialize (paCR3 : Nat)
  | VmmInitializeMemoryModel (tp : VMM_MEMORYMODEL_TP)
  | VmmProcessCreateEntry (a0 : Bool) (dwPID dwPPID a3 paDTB a5 : Nat) (szName : String)
      (a7 : Bool) (a8 a9 : Nat)
  | VmmProcessCreateFinish
  | VmmTlbSpider (pProcess : Nat)
  | Ob_DECREF (pOb : Nat)
  | InterlockedIncrement64 (counter : StatCounter)
  | VmmProcessGet (dwPID : Nat)
  | VmmWin_EnumerateEPROCESS (pSystemProcess : Nat) (fRefreshTotal : Bool)
  | Sleep (dwMilliseconds : Nat)
  | EnterCriticalSection
  | LeaveCriticalSection
  | VmmCacheClear (tag : VMM_CACHE_TAG)
  | ObSet_Clear_PAGING_FAILED
  | LeechCore_GetOption_ADDR_MAX
  | VmmWinObj_Refresh
  | PluginManager_Notify (fEvent : VMMDLL_PLUGIN_EVENT)
  | MmPfn_Refresh
  | VmmWinReg_Refresh
  | VmmWinUser_Refresh
  | VmmWinPhysMemMap_Refresh
  | CloseHandle (hObject : Nat)
  | CreateThread
deriving DecidableEq, Repr

/-- What the calls leaving `vmmproc.c` return during one call of
`VmmProcInitialize`, or during one tick of the updater thread. -/
structure World where
  VmmInitialize : Bool
  VmmWinInit_TryInitialize : Bool
  VmmProcessCreateEntry : Nat
  VmmProcessGet : Nat → Nat
  VmmWin_EnumerateEPROCESS : Bool
  LeechCore_GetOption : Bool
  paMax : Nat
  CreateThread : Nat

/-- Result of running a piece of code from a context: the value it returns,
the context it leaves, and the calls it made. -/
structure Out (α : Type) where
  ret : α
  ctx : Ctx
  trace : List Event

/-- Make the call `e`, then go on with `o`. -/
def call {α : Type} (e : Event) (o : Out α) : Out α :=
  { ret := o.ret, ctx := o.ctx, trace := e :: o.trace }

/-- Run `o`, then `k` on its result and context. -/
def Out.seq {α β : Type} (o : Out α) (k : α → Ctx → Out β) : Out β :=
  { ret := (k o.ret o.ctx).ret, ctx := (k o.ret o.ctx).ctx,
    trace := o.trace ++ (k o.ret o.ctx).trace }

/-- `InterlockedIncrement64` on a 64-bit counter. -/
def incr64 (n : Nat) : Nat := (n + 1) % 2 ^ 64

/-- `InterlockedIncrement64(&ctxVmm->stat.<counter>)`. -/
def Stat.incr (s : Stat) : StatCounter → Stat
  | .cProcessRefreshPartial => { s with cProcessRefreshPartial := incr64 s.cProcessRefreshPartial }
  | .cProcessRefreshFull => { s with cProcessRefreshFull := incr64 s.cProcessRefreshFull }
  | .cPhysRefreshCache => { s with cPhysRefreshCache := incr64 s.cPhysRefreshCache }
  | .cPageRefreshCache => { s with cPageRefreshCache := incr64 s.cPageRefreshCache }
  | .cTlbRefreshCache => { s with cTlbRefreshCache := incr64 s.cTlbRefreshCache }

/-- The context after `InterlockedIncrement64(&ctxVmm->stat.<counter>)`. -/
def Ctx.incr (c : Ctx) (k : StatCounter) : Ctx := { c with stat := c.stat.incr k }

/-! ## `VmmProcUserCR3TryInitialize64` -/

/-- `BOOL VmmProcUserCR3TryInitialize64()`. -/
def VmmProcUserCR3TryInitialize64 (x : World) (c : Ctx) : Out Bool :=
  call .VmmProcUserCR3TryInitialize64 <|
  call (.VmmInitializeMemoryModel .VMM_MEMORYMODEL_X64) <|
  call (.VmmProcessCreateEntry true 1 0 0 c.cfg_paCR3 0 "unknown_process" false 0 0) <|
  call .VmmProcessCreateFinish <|
  if x.VmmProcessCreateEntry = 0 then
    call (.VmmInitializeMemoryModel .VMM_MEMORYMODEL_NA) <|
    ⟨false, c, []⟩
  else
    call (.VmmTlbSpider x.VmmProcessCreateEntry) <|
    call (.Ob_DECREF x.VmmProcessCreateEntry) <|
    ⟨true, { c with tpSystem := .VMM_SYSTEM_UNKNOWN_X64, kernel_paDTB := c.cfg_paCR3 }, []⟩

/-! ## `VmmProc_RefreshProcesses` -/

/-- The `// Windows OS` part of `VmmProc_RefreshProcesses` and its final
`return TRUE`. -/
def refreshWindows (x : World) (fRefreshTotal : Bool) (c : Ctx) : Out Bool :=
  if c.tpSystem = .VMM_SYSTEM_WINDOWS_X64 ∨ c.tpSystem = .VMM_SYSTEM_WINDOWS_X86 then
    call (.VmmProcessGet 4) <|
    if x.VmmProcessGet 4 = 0 then
      ⟨false, c, []⟩
    else
      call (.VmmWin_EnumerateEPROCESS (x.VmmProcessGet 4) fRefreshTotal) <|
      call (.Ob_DECREF (x.VmmProcessGet 4)) <|
      ⟨true, c, []⟩
  else ⟨true, c, []⟩

/-- `BOOL VmmProc_RefreshProcesses(BOOL fRefreshTotal)`. -/
def VmmProc_RefreshProcesses (x : World) (fRefreshTotal : Bool) (c : Ctx) : Out Bool :=
  call (.VmmProc_RefreshProcesses fRefreshTotal) <|
  (if !fRefreshTotal then
      call (.InterlockedIncrement64 .cProcessRefreshPartial) ⟨(), c.incr .cProcessRefreshPartial, []⟩
    else ⟨(), c, []⟩).seq fun _ c =>
  (if fRefreshTotal then
      call (.InterlockedIncrement64 .cProcessRefreshFull) ⟨(), c.incr .cProcessRefreshFull, []⟩
    else ⟨(), c, []⟩).seq fun _ c =>
  (if fRefreshTotal then
      if c.tpSystem = .VMM_SYSTEM_UNKNOWN_X64 then VmmProcUserCR3TryInitialize64 x c
      else ⟨false, c, []⟩
    else ⟨false, c, []⟩).seq fun _ c =>
  refreshWindows x fRefreshTotal c

/-! ## `VmmProcCacheUpdaterThread` -/

def VMMPROC_UPDATERTHREAD_LOCAL_PERIOD : Nat := 100
def VMMPROC_UPDATERTHREAD_LOCAL_PHYSCACHE : Nat := 500 / VMMPROC_UPDATERTHREAD_LOCAL_PERIOD
def VMMPROC_UPDATERTHREAD_LOCAL_TLB : Nat := 5 * 1000 / VMMPROC_UPDATERTHREAD_LOCAL_PERIOD
def VMMPROC_UPDATERTHREAD_LOCAL_PROC_REFRESHLIST : Nat :=
  5 * 1000 / VMMPROC_UPDATERTHREAD_LOCAL_PERIOD
def VMMPROC_UPDATERTHREAD_LOCAL_PROC_REFRESHTOTAL : Nat :=
  15 * 1000 / VMMPROC_UPDATERTHREAD_LOCAL_PERIOD
def VMMPROC_UPDATERTHREAD_LOCAL_REGISTRY : Nat :=
  5 * 60 * 1000 / VMMPROC_UPDATERTHREAD_LOCAL_PERIOD

def VMMPROC_UPDATERTHREAD_REMOTE_PERIOD : Nat := 100
def VMMPROC_UPDATERTHREAD_REMOTE_PHYSCACHE : Nat :=
  15 * 1000 / VMMPROC_UPDATERTHREAD_REMOTE_PERIOD
def VMMPROC_UPDATERTHREAD_REMOTE_TLB : Nat :=
  3 * 60 * 1000 / VMMPROC_UPDATERTHREAD_REMOTE_PERIOD
def VMMPROC_UPDATERTHREAD_REMOTE_PROC_REFRESHLIST : Nat :=
  15 * 1000 / VMMPROC_UPDATERTHREAD_REMOTE_PERIOD
def VMMPROC_UPDATERTHREAD_REMOTE_PROC_REFRESHTOTAL : Nat :=
  3 * 60 * 1000 / VMMPROC_UPDATERTHREAD_REMOTE_PERIOD
def VMMPROC_UPDATERTHREAD_REMOTE_REGISTRY : Nat :=
  10 * 60 * 1000 / VMMPROC_UPDATERTHREAD_LOCAL_PERIOD

/-- The `if(ctxMain->dev.fRemote) ... else ...` block that opens
`VmmProcCacheUpdaterThread`. -/
def installTickTable (c : Ctx) : Ctx :=
  if c.dev_fRemote then
    { c with ThreadProcCache :=
      { c.ThreadProcCache with
        cMs_TickPeriod := VMMPROC_UPDATERTHREAD_REMOTE_PERIOD
        cTick_Phys := VMMPROC_UPDATERTHREAD_REMOTE_PHYSCACHE
        cTick_TLB := VMMPROC_UPDATERTHREAD_REMOTE_TLB
        cTick_ProcPartial := VMMPROC_UPDATERTHREAD_REMOTE_PROC_REFRESHLIST
        cTick_ProcTotal := VMMPROC_UPDATERTHREAD_REMOTE_PROC_REFRESHTOTAL
        cTick_Registry := VMMPROC_UPDATERTHREAD_REMOTE_REGISTRY } }
  else
    { c with ThreadProcCache :=
      { c.ThreadProcCache with
        cMs_TickPeriod := VMMPROC_UPDATERTHREAD_LOCAL_PERIOD
        cTick_Phys := VMMPROC_UPDATERTHREAD_LOCAL_PHYSCACHE
        cTick_TLB := VMMPROC_UPDATERTHREAD_LOCAL_TLB
        cTick_ProcPartial := VMMPROC_UPDATERTHREAD_LOCAL_PROC_REFRESHLIST
        cTick_ProcTotal := VMMPROC_UPDATERTHREAD_LOCAL_PROC_REFRESHTOTAL
        cTick_Registry := VMMPROC_UPDATERTHREAD_LOCAL_REGISTRY } }

/-- The five flags computed at the head of a tick. -/
structure Flags where
  fPHYS : Bool
  fTLB : Bool
  fProcPartial : Bool
  fProcTotal : Bool
  fRegistry : Bool
deriving DecidableEq, Repr

/-- The C remainder `a % b`, undefined for `b = 0`. -/
def cmod (a b : Nat) : Option Nat := if b = 0 then none else some (a % b)

/-- The flag computations of one tick, with `i` the counter after `i++`;
`none` when a remainder by zero is taken. -/
def dueFlags (t : ThreadProcCache) (i : Nat) : Option Flags :=
  (cmod i t.cTick_TLB).bind fun rTLB =>
  (cmod i t.cTick_Phys).bind fun rPhys =>
  (cmod i t.cTick_ProcTotal).bind fun rTotal =>
  (cmod i t.cTick_ProcPartial).bind fun rPartial =>
  (cmod i t.cTick_Registry).bind fun rRegistry =>
  some {
    fTLB := rTLB == 0
    fPHYS := rPhys == 0
    fProcTotal := rTotal == 0
    fProcPartial := rPartial == 0 && !(rTotal == 0)
    fRegistry := rRegistry == 0 }

/-- The `if(fPHYS) { ... }` block. -/
def physBlock (f : Flags) (c : Ctx) : Out Unit :=
  if f.fPHYS then
    call (.VmmCacheClear .VMM_CACHE_TAG_PHYS) <|
    call (.InterlockedIncrement64 .cPhysRefreshCache) <|
    call (.VmmCacheClear .VMM_CACHE_TAG_PAGING) <|
    call (.InterlockedIncrement64 .cPageRefreshCache) <|
    call .ObSet_Clear_PAGING_FAILED <|
    ⟨(), (c.incr .cPhysRefreshCache).incr .cPageRefreshCache, []⟩
  else ⟨(), c, []⟩

/-- The `if(fTLB) { ... }` block. -/
def tlbBlock (f : Flags) (c : Ctx) : Out Unit :=
  if f.fTLB then
    call (.VmmCacheClear .VMM_CACHE_TAG_TLB) <|
    call (.InterlockedIncrement64 .cTlbRefreshCache) <|
    ⟨(), c.incr .cTlbRefreshCache, []⟩
  else ⟨(), c, []⟩

/-- The `if(ctxMain->dev.fVolatileMaxAddress) { ... }` block. -/
def maxAddressBlock (x : World) (c : Ctx) : Out Unit :=
  if c.dev_fVolatileMaxAddress then
    call .LeechCore_GetOption_ADDR_MAX <|
    if x.LeechCore_GetOption && decide (x.paMax > 0x01000000) then
      ⟨(), { c with dev_paMax := x.paMax }, []⟩
    else ⟨(), c, []⟩
  else ⟨(), c, []⟩

/-- The `if(fProcPartial || fProcTotal) { ... }` block; it returns `false`
when it leaves through `goto fail`. -/
def procBlock (x : World) (f : Flags) (c : Ctx) : Out Bool :=
  if f.fProcPartial || f.fProcTotal then
    (VmmProc_RefreshProcesses x f.fProcTotal c).seq fun ok c =>
    if !ok then
      call .LeaveCriticalSection <|
      ⟨false, c, []⟩
    else
      (maxAddressBlock x c).seq fun _ c =>
      (if f.fProcTotal then
          call .VmmWinObj_Refresh <|
          call (.PluginManager_Notify .VMMDLL_PLUGIN_EVENT_REFRESH_PROCESS_TOTAL) <|
          ⟨(), c, []⟩
        else ⟨(), c, []⟩).seq fun _ c =>
      call .MmPfn_Refresh <|
      ⟨true, c, []⟩
  else ⟨true, c, []⟩

/-- The `if(fRegistry) { ... }` block. -/
def registryBlock (f : Flags) (c : Ctx) : Out Unit :=
  if f.fRegistry then
    call .VmmWinReg_Refresh <|
    call .VmmWinUser_Refresh <|
    call .VmmWinPhysMemMap_Refresh <|
    call (.PluginManager_Notify .VMMDLL_PLUGIN_EVENT_REFRESH_REGISTRY) <|
    ⟨(), c, []⟩
  else ⟨(), c, []⟩

/-- How one pass through the body of the `while` loop ends. -/
inductive TickStatus
  | next
  | fail
  | divByZero
deriving DecidableEq, Repr

/-- One pass through the body of the `while` loop, with `i` the counter after
`i++`. -/
def loopBody (x : World) (i : Nat) (c : Ctx) : Out TickStatus :=
  call (.Sleep c.ThreadProcCache.cMs_TickPeriod) <|
  match dueFlags c.ThreadProcCache i with
  | none => ⟨.divByZero, c, []⟩
  | some f =>
    call .EnterCriticalSection <|
    (physBlock f c).seq fun _ c =>
    (tlbBlock f c).seq fun _ c =>
    (procBlock x f c).seq fun ok c =>
    if !ok then ⟨.fail, c, []⟩
    else
      (registryBlock f c).seq fun _ c =>
      call .LeaveCriticalSection <|
      ⟨.next, c, []⟩

/-- The code after the label `fail:`. -/
def threadExit (c : Ctx) : Out Nat :=
  (if c.ThreadProcCache.hThread ≠ 0 then
      call (.CloseHandle c.ThreadProcCache.hThread) ⟨(), c, []⟩
    else ⟨(), c, []⟩).seq fun _ c =>
  ⟨0, { c with ThreadProcCache := { c.ThreadProcCache with hThread := 0 } }, []⟩

/-- What the surroundings contribute to one tick: whether another thread has
cleared `ThreadProcCache.fEnabled` before the loop test, and the results of the
calls made in the loop body. -/
structure Tick where
  fStop : Bool
  world : World

/-- State of the thread when the model stops following it. -/
inductive ThreadStatus
  | returned (ret : Nat)
  | divByZero
  | running (i : Nat)
deriving DecidableEq, Repr

/-- The `while(ctxVmm->ThreadProcCache.fEnabled)` loop followed by the exit
code, run against the given ticks with `i` the current counter.  The status is
`running` when the ticks are used up with the loop still going. -/
def updaterLoop : List Tick → Nat → Ctx → Out ThreadStatus
  | [], i, c => ⟨.running i, c, []⟩
  | t :: ts, i, c =>
    if !(c.ThreadProcCache.fEnabled && !t.fStop) then
      (threadExit { c with ThreadProcCache := { c.ThreadProcCache with fEnabled := false } }).seq
        fun r c => ⟨.returned r, c, []⟩
    else
      (loopBody t.world (qadd i 1) c).seq fun st c =>
      match st with
      | .next => updaterLoop ts (qadd i 1) c
      | .fail => (threadExit c).seq fun r c => ⟨.returned r, c, []⟩
      | .divByZero => ⟨.divByZero, c, []⟩

/-- `DWORD VmmProcCacheUpdaterThread()`, run against the given ticks. -/
def VmmProcCacheUpdaterThread (ticks : List Tick) (c : Ctx) : Out ThreadStatus :=
  updaterLoop ticks 0 (installTickTable c)

/-! ## `VmmProcInitialize` -/

/-- The `if(result && fVolatile && !fDisableBackgroundRefresh) { ... }` block
of `VmmProcInitialize`. -/
def startUpdater (x : World) (result : Bool) (c : Ctx) : Out Unit :=
  if result && c.dev_fVolatile && !c.cfg_fDisableBackgroundRefresh then
    (call .CreateThread
      ⟨(), { c with ThreadProcCache :=
        { c.ThreadProcCache with fEnabled := true, hThread := x.CreateThread } }, []⟩).seq
    fun _ c =>
    if c.ThreadProcCache.hThread = 0 then
      ⟨(), { c with ThreadProcCache := { c.ThreadProcCache with fEnabled := false } }, []⟩
    else ⟨(), c, []⟩
  else ⟨(), c, []⟩

/-- `BOOL VmmProcInitialize()`. -/
def VmmProcInitialize (x : World) (c : Ctx) : Out Bool :=
  call .VmmInitialize <|
  if !x.VmmInitialize then ⟨false, c, []⟩
  else
    call (.VmmWinInit_TryInitialize c.cfg_paCR3) <|
    (if !x.VmmWinInit_TryInitialize then
        if c.cfg_paCR3 ≠ 0 then VmmProcUserCR3TryInitialize64 x c
        else ⟨false, c, []⟩
      else ⟨x.VmmWinInit_TryInitialize, c, []⟩).seq fun result c =>
    (startUpdater x result c).seq fun _ c =>
    ⟨result, { c with ThreadWorkers_fEnabled := true }, []⟩

/-! ## The tick's actions as the specification lists them -/

/-- The event is the entry into `VmmProc_RefreshProcesses`. -/
def Event.isRefreshCall : Event → Bool
  | .VmmProc_RefreshProcesses _ => true
  | _ => false

/-- The actions of one tick named by the specification. -/
inductive Action
  | clearPhysCache
  | clearPagingCache
  | clearPagingFailed
  | clearTlbCache
  | processRefresh
  | maxAddressUpdate
  | objectRefresh
  | notifyProcessTotal
  | pfnRefresh
  | registryRefresh
  | userProfileRefresh
  | physMemMapRefresh
  | notifyRegistry
deriving DecidableEq, Repr

/-- The order in which the specification lists the actions of a tick. -/
def tickActions : List Action :=
  [.clearPhysCache, .clearPagingCache, .clearPagingFailed, .clearTlbCache, .processRefresh,
   .maxAddressUpdate, .objectRefresh, .notifyProcessTotal, .pfnRefresh, .registryRefresh,
   .userProfileRefresh, .physMemMapRefresh, .notifyRegistry]

/-- Whether an action is due on a tick with flags `f`: the cache clears follow
their own flag, the process refresh and what hangs on it follow the partial or
total flag (the maximum-address update only on a backend with volatile maximum
address, the object refresh and its notification only on a total refresh), the
registry group follows the registry flag. -/
def Action.due (f : Flags) (c : Ctx) : Action → Bool
  | .clearPhysCache => f.fPHYS
  | .clearPagingCache => f.fPHYS
  | .clearPagingFailed => f.fPHYS
  | .clearTlbCache => f.fTLB
  | .processRefresh => f.fProcPartial || f.fProcTotal
  | .maxAddressUpdate => (f.fProcPartial || f.fProcTotal) && c.dev_fVolatileMaxAddress
  | .objectRefresh => f.fProcTotal
  | .notifyProcessTotal => f.fProcTotal
  | .pfnRefresh => f.fProcPartial || f.fProcTotal
  | .registryRefresh => f.fRegistry
  | .userProfileRefresh => f.fRegistry
  | .physMemMapRefresh => f.fRegistry
  | .notifyRegistry => f.fRegistry

/-- What an action does when it is performed: the calls it makes and the
context it leaves.  A cache clear counts its clear; the process refresh is
`VmmProc_RefreshProcesses`; the maximum-address update asks the device for its
maximum address and stores the answer in `ctxMain->dev.paMax` when the call
succeeded with a value above `0x01000000`, and leaves `paMax` as it was
otherwise. -/
def Action.run (x : World) (fRefreshTotal : Bool) : Action → Ctx → Out Unit
  | .clearPhysCache, c =>
      call (.VmmCacheClear .VMM_CACHE_TAG_PHYS) <|
      call (.InterlockedIncrement64 .cPhysRefreshCache) ⟨(), c.incr .cPhysRefreshCache, []⟩
  | .clearPagingCache, c =>
      call (.VmmCacheClear .VMM_CACHE_TAG_PAGING) <|
      call (.InterlockedIncrement64 .cPageRefreshCache) ⟨(), c.incr .cPageRefreshCache, []⟩
  | .clearPagingFailed, c => call .ObSet_Clear_PAGING_FAILED ⟨(), c, []⟩
  | .clearTlbCache, c =>
      call (.VmmCacheClear .VMM_CACHE_TAG_TLB) <|
      call (.InterlockedIncrement64 .cTlbRefreshCache) ⟨(), c.incr .cTlbRefreshCache, []⟩
  | .processRefresh, c =>
      (VmmProc_RefreshProcesses x fRefreshTotal c).seq fun _ c => ⟨(), c, []⟩
  | .maxAddressUpdate, c =>
      call .LeechCore_GetOption_ADDR_MAX <|
      if x.LeechCore_GetOption = true ∧ x.paMax > 0x01000000 then
        ⟨(), { c with dev_paMax := x.paMax }, []⟩
      else ⟨(), c, []⟩
  | .objectRefresh, c => call .VmmWinObj_Refresh ⟨(), c, []⟩
  | .notifyProcessTotal, c =>
      call (.PluginManager_Notify .VMMDLL_PLUGIN_EVENT_REFRESH_PROCESS_TOTAL) ⟨(), c, []⟩
  | .pfnRefresh, c => call .MmPfn_Refresh ⟨(), c, []⟩
  | .registryRefresh, c => call .VmmWinReg_Refresh ⟨(), c, []⟩
  | .userProfileRefresh, c => call .VmmWinUser_Refresh ⟨(), c, []⟩
  | .physMemMapRefresh, c => call .VmmWinPhysMemMap_Refresh ⟨(), c, []⟩
  | .notifyRegistry, c =>
      call (.PluginManager_Notify .VMMDLL_PLUGIN_EVENT_REFRESH_REGISTRY) ⟨(), c, []⟩

/-- The given actions performed one after the other. -/
def runActions (x : World) (fRefreshTotal : Bool) : List Action → Ctx → Out Unit
  | [], c => ⟨(), c, []⟩
  | a :: as, c => (a.run x fRefreshTotal c).seq fun _ c => runActions x fRefreshTotal as c

/-- The due members of `tickActions`, group by group. -/
def dueActions (f : Flags) (c : Ctx) : List Action :=
  (if f.fPHYS = true then [.clearPhysCache, .clearPagingCache, .clearPagingFailed] else []) ++
  ((if f.fTLB = true then [.clearTlbCache] else []) ++
  ((if (f.fProcPartial || f.fProcTotal) = true then
      .processRefresh ::
        ((if c.dev_fVolatileMaxAddress = true then [.maxAddressUpdate] else []) ++
        ((if f.fProcTotal = true then [.objectRefresh, .notifyProcessTotal] else []) ++
        [.pfnRefresh]))
    else []) ++
  (if f.fRegistry = true then
      [.registryRefresh, .userProfileRefresh, .physMemMapRefresh, .notifyRegistry]
    else [])))

/-- The tick table the updater thread installs on a backend that is remote
(`fRemote = true`) or local (`fRemote = false`). -/
def installedTable (fRemote : Bool) (c : Ctx) : ThreadProcCache :=
  (VmmProcCacheUpdaterThread [] { c with dev_fRemote := fRemote }).ctx.ThreadProcCache

/-! ### Sample contexts -/

/-- A context before initialisation, with user-supplied paging root
`0x001AA000` on a local, non-volatile backend. -/
def sampleCtx : Ctx :=
  { cfg_paCR3 := 0x001AA000
    cfg_fDisableBackgroundRefresh := false
    dev_fRemote := false
    dev_fVolatile := false
    dev_fVolatileMaxAddress := false
    dev_paMax := 0x100000000
    tpSystem := .VMM_SYSTEM_OTHER
    kernel_paDTB := 0
    ThreadProcCache :=
      { fEnabled := false, hThread := 0, cMs_TickPeriod := 0, cTick_Phys := 0, cTick_TLB := 0,
        cTick_ProcPartial := 0, cTick_ProcTotal := 0, cTick_Registry := 0 }
    ThreadWorkers_fEnabled := false
    stat :=
      { cProcessRefreshPartial := 0, cProcessRefreshFull := 0, cPhysRefreshCache := 0,
        cPageRefreshCache := 0, cTlbRefreshCache := 0 } }

/-- Surroundings in which OS auto-identification fails and every other call
succeeds; process creation returns handle `0x1000`, no system process is
found. -/
def sampleWorld : World :=
  { VmmInitialize := true
    VmmWinInit_TryInitialize := false
    VmmProcessCreateEntry := 0x1000
    VmmProcessGet := fun _ => 0
    VmmWin_EnumerateEPROCESS := true
    LeechCore_GetOption := true
    paMax := 0x200000000
    CreateThread := 0x44 }

/-- A context after initialisation on a Windows x64 system: local volatile
backend with volatile maximum address, updater thread enabled with handle
`0x44`. -/
def liveCtx : Ctx :=
  { sampleCtx with
    dev_fVolatile := true
    dev_fVolatileMaxAddress := true
    tpSystem := .VMM_SYSTEM_WINDOWS_X64
    kernel_paDTB := 0x001AA000
    ThreadProcCache := { sampleCtx.ThreadProcCache with fEnabled := true, hThread := 0x44 }
    ThreadWorkers_fEnabled := true }

/-- A tick on which nobody stops the thread and the system process is found
under handle `0x2000`. -/
def okTick : Tick :=
  { fStop := false, world := { sampleWorld with VmmProcessGet := fun _ => 0x2000 } }

/-- A tick on which nobody stops the thread and the system process is not
found. -/
def lostTick : Tick :=
  { fStop := false, world := sampleWorld }

/-! ## Process registry -/

/-- Modelled from the spec: a process entry of the registry (specification
sections 3 and 4.1).  `VmmProcessCreateEntry`, `VmmProcessCreateFinish` and
`VmmProcessGet` are implemented outside `vmmproc.c`, in a file that is not among
the sources.  `handle` is the identity of the allocated object (never `0`);
reference counts and release are left out. -/
structure ProcessEntry where
  handle : Nat
  fUserSupplied : Bool
  dwPID : Nat
  dwPPID : Nat
  paDTB : Nat
  szName : String
  fUnderConstruction : Bool
deriving DecidableEq, Repr

/-- Modelled from the spec: the registry, made of the live generation, the
pending (under-construction) set and the number of entries allocated so far. -/
structure Registry where
  live : List ProcessEntry
  pending : List ProcessEntry
  cAlloc : Nat
deriving DecidableEq, Repr

/-- Modelled from the spec: the arguments of `create_entry`, with `fAlloc`
telling whether the allocation succeeds. -/
structure CreateArgs where
  fAlloc : Bool
  fUserSupplied : Bool
  dwPID : Nat
  dwPPID : Nat
  paDTB : Nat
  szName : String
deriving DecidableEq, Repr

/-- Modelled from the spec: `create_entry` allocates a new entry, marks it
under construction and inserts it into the pending set, returning its handle.
It returns no handle, and leaves the registry as it is, on allocation failure
and on validation failure, which here is an identifier already present in the
pending set (identifiers are unique within a generation). -/
def create_entry (r : Registry) (a : CreateArgs) : Option Nat × Registry :=
  if a.fAlloc = false ∨ r.pending.any (fun e => e.dwPID == a.dwPID) = true then (none, r)
  else
    (some (r.cAlloc + 1),
      { live := r.live
        pending :=
          { handle := r.cAlloc + 1, fUserSupplied := a.fUserSupplied, dwPID := a.dwPID,
            dwPPID := a.dwPPID, paDTB := a.paDTB, szName := a.szName,
            fUnderConstruction := true } :: r.pending
        cAlloc := r.cAlloc + 1 })

/-- Modelled from the spec: `finish_generation` publishes the pending set as
the new live generation, retiring the previous one. -/
def finish_generation (r : Registry) : Registry :=
  { live := r.pending.map fun e => { e with fUnderConstruction := false }
    pending := []
    cAlloc := r.cAlloc }

/-- Modelled from the spec: `lookup` returns the handle of the live entry with
the given identifier, or none. -/
def lookup (r : Registry) (dwPID : Nat) : Option Nat :=
  (r.live.find? fun e => e.dwPID == dwPID).map fun e => e.handle

/-- Further `create_entry` calls, their handles dropped. -/
def create_many (r : Registry) : List CreateArgs → Registry
  | [] => r
  | a :: as => create_many (create_entry r a).2 as

/-- Modelled from the spec: the registry before any entry is created. -/
def emptyRegistry : Registry := { live := [], pending := [], cAlloc := 0 }

/-- Every handle in the registry has been allocated, and identifiers are
unique within the pending set. -/
def Registry.WF (r : Registry) : Prop :=
  (∀ e ∈ r.live, e.handle ≤ r.cAlloc) ∧ (∀ e ∈ r.pending, e.handle ≤ r.cAlloc) ∧
  (r.pending.map fun e => e.dwPID).Nodup

/-- The arguments `VmmProcUserCR3TryInitialize64` gives for paging root
`0x001AA000`. -/
def unknownProcessArgs : CreateArgs :=
  { fAlloc := true, fUserSupplied := true, dwPID := 1, dwPPID := 0, paDTB := 0x001AA000,
    szName := "unknown_process" }

/-! ### Memory for the wrapping guard -/

/-- Memory around a buffer probed at `cbOffset = 0xFFFFFFFFFFFFFFF8`: the
signature at that offset and an EPROCESS-like header whose DirectoryTableBase
sits `0x100` bytes below it. -/
def wrapMem : Mem :=
  pokeQ (pokeQ (pokeQ (pokeQ (pokeQ (pokeQ zeroMem
    0xFFFFFFFFFFFFFFF8 0x00006D6574737953)
    0xFFFFFFFFFFFFFEF8 0x001AA123)
    0xFFFFFFFFFFFFFEF0 0xffff800000000000)
    0xFFFFFFFFFFFFFEE8 0xffff800000000000)
    0xFFFFFFFFFFFFFEE0 0xffff800000000000)
    0xFFFFFFFFFFFFFED8 0xffff800000000000

/-! ## Lemmas on machine words -/

theorem byteAt_lt (pb : Mem) (off : Int) : byteAt pb off < 256 :=
  Nat.mod_lt _ (by decide)

theorem PDWORD_lt (pb : Mem) (off : Int) : PDWORD pb off < 2 ^ 32 := by
  unfold PDWORD
  have h0 := byteAt_lt pb off
  have h1 := byteAt_lt pb (off + 1)
  have h2 := byteAt_lt pb (off + 2)
  have h3 := byteAt_lt pb (off + 3)
  omega

theorem PQWORD_lt (pb : Mem) (off : Int) : PQWORD pb off < 2 ^ 64 := by
  unfold PQWORD
  have h0 := PDWORD_lt pb off
  have h1 := PDWORD_lt pb (off + 4)
  omega

/-- Masking a 64-bit value with the complement of `2^k - 1` clears its low `k`
bits. -/
theorem and_highMask (k v : Nat) (hk : k ≤ 64) (hv : v < 2 ^ 64) :
    v &&& (2 ^ 64 - 2 ^ k) = v / 2 ^ k * 2 ^ k := by
  apply Nat.eq_of_testBit_eq
  intro j
  have h1 : 2 ^ 64 - 2 ^ k = 2 ^ k * (2 ^ (64 - k) - 1) := by
    rw [Nat.mul_sub, ← pow_add]; congr 1
    · congr 1; omega
    · simp
  rw [Nat.testBit_and, h1, Nat.testBit_mul_pow_two, Nat.testBit_two_pow_sub_one,
    Nat.mul_comm, Nat.testBit_mul_pow_two, ← Nat.shiftRight_eq_div_pow, Nat.testBit_shiftRight]
  by_cases hj : k ≤ j
  · simp [hj]
    intro hb
    by_contra h2
    have h3 : v.testBit j = false := by
      apply Nat.testBit_lt_two_pow
      calc v < 2 ^ 64 := hv
        _ ≤ 2 ^ j := Nat.pow_le_pow_right (by decide) (by omega)
    simp [h3] at hb
  · simp [hj]

theorem and_top20 (v : Nat) (hv : v < 2 ^ 64) :
    v &&& 0xfffff00000000000 = v / 2 ^ 44 * 2 ^ 44 := by
  have h := and_highMask 44 v (by decide) hv
  norm_num at h ⊢
  exact h

theorem and_top17 (v : Nat) (hv : v < 2 ^ 64) :
    v &&& 0xffff800000000000 = v / 2 ^ 47 * 2 ^ 47 := by
  have h := and_highMask 47 v (by decide) hv
  norm_num at h ⊢
  exact h

theorem and_pageMask (v : Nat) (hv : v < 2 ^ 64) :
    v &&& 0xfffffffffffff000 = v / 2 ^ 12 * 2 ^ 12 := by
  have h := and_highMask 12 v (by decide) hv
  norm_num at h ⊢
  exact h

theorem and_low56 (v : Nat) : v &&& 0x00ffffffffffffff = v % 2 ^ 56 := by
  have h := Nat.and_pow_two_sub_one_eq_mod v 56
  norm_num at h ⊢
  exact h

theorem and_low3 (v : Nat) : v &&& 0x07 = v % 8 := by
  have h := Nat.and_pow_two_sub_one_eq_mod v 3
  norm_num at h ⊢
  exact h

/-- The code's loop-body test coincides with the specification's structural
predicate. -/
theorem headerAt_iff (pb : Mem) (i : Nat) : headerAt pb i = true ↔ EprocessHeader pb i := by
  have h0 := PQWORD_lt pb ((i : Int) - 0x00)
  have h1 := PQWORD_lt pb ((i : Int) - 0x08)
  have h2 := PQWORD_lt pb ((i : Int) - 0x10)
  have h3 := PQWORD_lt pb ((i : Int) - 0x18)
  have h4 := PQWORD_lt pb ((i : Int) - 0x20)
  unfold headerAt EprocessHeader
  rw [and_top20 _ h0, and_top17 _ h1, and_top17 _ h2, and_top17 _ h3, and_top17 _ h4]
  simp only [Int.sub_zero] at h0 ⊢
  simp only [Bool.and_eq_true, Bool.not_eq_true', bne_eq_false_iff_eq, beq_eq_false_iff_ne]
  constructor
  · rintro ⟨⟨⟨⟨⟨⟨a, b⟩, c⟩, d⟩, e⟩, f⟩, g⟩
    refine ⟨b, ?_, ?_, ?_, ?_, ?_, g⟩ <;> omega
  · rintro ⟨b, a, c, d, e, f, g⟩
    refine ⟨⟨⟨⟨⟨⟨?_, b⟩, ?_⟩, ?_⟩, ?_⟩, ?_⟩, g⟩ <;> omega

/-! ## The scan loop -/

theorem scanLoop_succ_fst (pb : Mem) (cbOffset fuel i : Nat) (hi : i > qsub cbOffset 0x500) :
    (scanLoop pb cbOffset (fuel + 1) i).1 =
      if headerAt pb i = true then
        some (some (PQWORD pb (i : Int) &&& 0xfffffffffffff000))
      else (scanLoop pb cbOffset fuel (qsub i 8)).1 := by
  simp only [scanLoop, readQ, readD, headerAt, Int.sub_zero]
  split_ifs <;> simp_all

theorem scanLoop_exit (pb : Mem) (cbOffset fuel i : Nat) (hi : ¬ i > qsub cbOffset 0x500) :
    scanLoop pb cbOffset (fuel + 1) i = (some none, []) := by
  simp only [scanLoop]
  rw [if_pos hi]

theorem qsub_of_le (a b : Nat) (ha : a < 2 ^ 64) (hb : b ≤ a) : qsub a b = a - b := by
  unfold qsub
  omega

/-- The scan from step `k` of the window misses when no remaining position
carries the header. -/
theorem scanLoop_miss (pb : Mem) (cbOffset : Nat) (h64 : cbOffset < 2 ^ 64)
    (hoff : 0x500 ≤ cbOffset) (m : Nat) :
    ∀ k, k + m = 160 → (∀ j, k ≤ j → j < 160 → headerAt pb (cbOffset - 8 * j) = false) →
      (scanLoop pb cbOffset (m + 1) (cbOffset - 8 * k)).1 = some none := by
  induction m with
  | zero =>
    intro k hk _
    rw [scanLoop_exit]
    rw [qsub_of_le _ _ h64 hoff]; omega
  | succ m ih =>
    intro k hk hmiss
    rw [scanLoop_succ_fst, hmiss k (le_refl k) (by omega)]
    · simp only [Bool.false_eq_true, if_false]
      rw [qsub_of_le _ _ (by omega) (by omega)]
      have e : cbOffset - 8 * k - 8 = cbOffset - 8 * (k + 1) := by omega
      rw [e]
      exact ih (k + 1) (by omega) (fun j h1 h2 => hmiss j (by omega) h2)
    · rw [qsub_of_le _ _ h64 hoff]; omega

/-- The scan from step `k` of the window returns the page-masked field of the
first remaining position that carries the header. -/
theorem scanLoop_hit (pb : Mem) (cbOffset : Nat) (h64 : cbOffset < 2 ^ 64)
    (hoff : 0x500 ≤ cbOffset) (m : Nat) :
    ∀ k n, k + m = 160 → k ≤ n → n < 160 →
      (∀ j, k ≤ j → j < n → headerAt pb (cbOffset - 8 * j) = false) →
      headerAt pb (cbOffset - 8 * n) = true →
      (scanLoop pb cbOffset (m + 1) (cbOffset - 8 * k)).1 =
        some (some (PQWORD pb ((cbOffset - 8 * n : Nat) : Int) &&& 0xfffffffffffff000)) := by
  induction m with
  | zero => intro k n hk h1 h2; omega
  | succ m ih =>
    intro k n hk hkn hn hmiss hhit
    have hpos : cbOffset - 8 * k > qsub cbOffset 0x500 := by
      rw [qsub_of_le _ _ h64 hoff]; omega
    rw [scanLoop_succ_fst _ _ _ _ hpos]
    by_cases hk2 : k = n
    · subst hk2
      rw [if_pos hhit]
    · rw [hmiss k (le_refl k) (by omega)]
      simp only [Bool.false_eq_true, if_false]
      rw [qsub_of_le _ _ (by omega) (by omega)]
      have e : cbOffset - 8 * k - 8 = cbOffset - 8 * (k + 1) := by omega
      rw [e]
      exact ih (k + 1) n (by omega) (by omega) hn (fun j h1 h2 => hmiss j (by omega) h2) hhit

/-- Passing the entry and signature checks hands over to the scan loop. -/
theorem verify_fst_of_checks (pb : Mem) (cb cbOffset : Nat)
    (he : entryChecks cb cbOffset) (hs : signatureChecks pb cbOffset) :
    (VmmProcPHYS_VerifyWindowsEPROCESS pb cb cbOffset).1 =
      (scanLoop pb cbOffset scanFuel cbOffset).1 := by
  obtain ⟨e1, e2⟩ := he
  obtain ⟨s1, s2⟩ := hs
  simp only [VmmProcPHYS_VerifyWindowsEPROCESS, readQ]
  rw [if_neg e1, if_neg e2]
  simp only [if_neg s1, if_neg s2]

/-- Failing an entry or signature check returns FALSE. -/
theorem verify_fst_of_not_checks (pb : Mem) (cb cbOffset : Nat)
    (h : ¬ (entryChecks cb cbOffset ∧ signatureChecks pb cbOffset)) :
    (VmmProcPHYS_VerifyWindowsEPROCESS pb cb cbOffset).1 = some none := by
  simp only [VmmProcPHYS_VerifyWindowsEPROCESS, readQ, entryChecks, signatureChecks] at h ⊢
  split_ifs <;> first | rfl | (exfalso; apply h; tauto)

/-- Outcome of a run that passed the entry and signature checks: either the
first position of the window carrying the header decides the result, or no
position carries it and the function returns FALSE. -/
theorem verify_outcome (pb : Mem) (cb cbOffset : Nat) (h64 : cbOffset < 2 ^ 64)
    (he : entryChecks cb cbOffset) (hs : signatureChecks pb cbOffset) :
    (∃ n, n < 160 ∧ EprocessHeader pb (cbOffset - 8 * n) ∧
        (∀ j, j < n → ¬ EprocessHeader pb (cbOffset - 8 * j)) ∧
        (VmmProcPHYS_VerifyWindowsEPROCESS pb cb cbOffset).1 =
          some (some (PQWORD pb ((cbOffset - 8 * n : Nat) : Int) / 2 ^ 12 * 2 ^ 12))) ∨
    ((∀ n, n < 160 → ¬ EprocessHeader pb (cbOffset - 8 * n)) ∧
        (VmmProcPHYS_VerifyWindowsEPROCESS pb cb cbOffset).1 = some none) := by
  have hoff : 0x500 ≤ cbOffset := by
    have := he.2
    omega
  rw [verify_fst_of_checks pb cb cbOffset he hs]
  by_cases hex : ∃ n, n < 160 ∧ headerAt pb (cbOffset - 8 * n) = true
  · left
    refine ⟨Nat.find hex, (Nat.find_spec hex).1, (headerAt_iff _ _).1 (Nat.find_spec hex).2, ?_, ?_⟩
    · intro j hj hh
      exact Nat.find_min hex hj ⟨by have := (Nat.find_spec hex).1; omega, (headerAt_iff _ _).2 hh⟩
    · have hrun := scanLoop_hit pb cbOffset h64 hoff 160 0 (Nat.find hex) (by omega)
        (Nat.zero_le _) (Nat.find_spec hex).1
        (fun j _ hj => by
          have hm := Nat.find_min hex hj
          have hlt : j < 160 := by have := (Nat.find_spec hex).1; omega
          cases hb : headerAt pb (cbOffset - 8 * j)
          · rfl
          · exact absurd ⟨hlt, hb⟩ hm)
        (Nat.find_spec hex).2
      simp only [Nat.mul_zero, Nat.sub_zero] at hrun
      rw [show scanFuel = 160 + 1 from rfl, hrun, and_pageMask _ (PQWORD_lt _ _)]
  · right
    have hnone : ∀ n, n < 160 → headerAt pb (cbOffset - 8 * n) = false := by
      intro n hn
      cases hb : headerAt pb (cbOffset - 8 * n)
      · rfl
      · exact absurd ⟨n, hn, hb⟩ hex
    refine ⟨fun n hn hh => ?_, ?_⟩
    · have := (headerAt_iff _ _).2 hh
      rw [hnone n hn] at this
      exact Bool.false_ne_true this
    · have hrun := scanLoop_miss pb cbOffset h64 hoff 160 0 (by omega) (fun j _ hj => hnone j hj)
      simp only [Nat.mul_zero, Nat.sub_zero] at hrun
      rw [show scanFuel = 160 + 1 from rfl, hrun]

/-- The function is total: whatever the buffer, length and offset, it returns
(the scan never exceeds its loop bound). -/
theorem verify_returns (pb : Mem) (cb cbOffset : Nat) (h64 : cbOffset < 2 ^ 64) :
    (VmmProcPHYS_VerifyWindowsEPROCESS pb cb cbOffset).1 ≠ none := by
  by_cases h : entryChecks cb cbOffset ∧ signatureChecks pb cbOffset
  · rcases verify_outcome pb cb cbOffset h64 h.1 h.2 with ⟨n, _, _, _, hr⟩ | ⟨_, hr⟩ <;>
      rw [hr] <;> simp
  · rw [verify_fst_of_not_checks pb cb cbOffset h]; simp

/-! ## Dereferences of the scan -/

theorem readQ_snd {α : Type} (pb : Mem) (off : Int) (k : Nat → Traced α) :
    (readQ pb off k).2 = ⟨off, 8⟩ :: (k (PQWORD pb off)).2 := rfl

theorem readD_snd {α : Type} (pb : Mem) (off : Int) (k : Nat → Traced α) :
    (readD pb off k).2 = ⟨off, 4⟩ :: (k (PDWORD pb off)).2 := rfl

theorem ite_snd {α β : Type} (p : Prop) [Decidable p] (a b : α × β) :
    (if p then a else b).2 = if p then a.2 else b.2 := apply_ite _ _ _ _

/-- The dereferences of one loop pass at position `i`: QWORDs at `i`, `i-0x08`,
`i-0x10`, `i-0x18`, `i-0x20` and the DWORD at `i-0x24`, followed by those of
the rest of the loop. -/
theorem scanLoop_succ_reads (pb : Mem) (cbOffset fuel i : Nat) (hi : i > qsub cbOffset 0x500)
    (a : Access) (ha : a ∈ (scanLoop pb cbOffset (fuel + 1) i).2) :
    a ∈ (scanLoop pb cbOffset fuel (qsub i 8)).2 ∨
    a = ⟨(i : Int), 8⟩ ∨ a = ⟨(i : Int) - 0x08, 8⟩ ∨ a = ⟨(i : Int) - 0x10, 8⟩ ∨
    a = ⟨(i : Int) - 0x18, 8⟩ ∨ a = ⟨(i : Int) - 0x20, 8⟩ ∨ a = ⟨(i : Int) - 0x24, 4⟩ := by
  simp only [scanLoop, if_neg (not_not.2 hi), readQ_snd, readD_snd, ite_snd, Int.sub_zero] at ha
  split_ifs at ha <;>
    simp only [List.mem_cons, List.not_mem_nil, or_false] at ha <;>
    tauto

/-- Every dereference of the scan loop started at step `k` of the window lies
between `cbOffset - 0x51C` and `cbOffset + 8`. -/
theorem scanLoop_reads (pb : Mem) (cbOffset : Nat) (h64 : cbOffset < 2 ^ 64)
    (hoff : 0x500 ≤ cbOffset) (m : Nat) :
    ∀ k, k + m = 160 → ∀ a ∈ (scanLoop pb cbOffset (m + 1) (cbOffset - 8 * k)).2,
      (cbOffset : Int) - 0x51C ≤ a.off ∧ a.off + a.cb ≤ (cbOffset : Int) + 8 := by
  induction m with
  | zero =>
    intro k hk a ha
    rw [scanLoop_exit] at ha
    · simp at ha
    · rw [qsub_of_le _ _ h64 hoff]; omega
  | succ m ih =>
    intro k hk a ha
    have hnext : qsub (cbOffset - 8 * k) 8 = cbOffset - 8 * (k + 1) := by
      rw [qsub_of_le _ _ (by omega) (by omega)]; omega
    have hcast : ((cbOffset - 8 * k : Nat) : Int) = (cbOffset : Int) - 8 * (k : Int) := by
      omega
    have hpos : cbOffset - 8 * k > qsub cbOffset 0x500 := by
      rw [qsub_of_le _ _ h64 hoff]; omega
    have hk160 : (k : Int) < 160 := by omega
    rcases scanLoop_succ_reads pb cbOffset (m + 1) _ hpos a ha with
      h | h | h | h | h | h | h
    · rw [hnext] at h
      exact ih (k + 1) (by omega) a h
    all_goals
      rw [hcast] at h
      subst h
      simp only
      omega

/-- When `cbOffset` is at least `0x51C` and the buffer holds 16 bytes from
`cbOffset` on, every dereference of the function lies inside the buffer. -/
theorem verify_reads_in_bounds (pb : Mem) (cb cbOffset : Nat) (h64 : cbOffset < 2 ^ 64)
    (hlo : 0x51C ≤ cbOffset) (hhi : cbOffset + 16 ≤ cb) :
    ∀ a ∈ (VmmProcPHYS_VerifyWindowsEPROCESS pb cb cbOffset).2, a.inBounds cb := by
  intro a ha
  have hs := scanLoop_reads pb cbOffset h64 (by omega) 160 0 (by omega) a
  simp only [Nat.mul_zero, Nat.sub_zero] at hs
  simp only [VmmProcPHYS_VerifyWindowsEPROCESS, readQ_snd, ite_snd] at ha
  unfold Access.inBounds
  split_ifs at ha <;>
    simp only [List.mem_cons, List.not_mem_nil, or_false] at ha
  · rcases ha with ha
    subst ha; simp only; omega
  · rcases ha with ha | ha <;> subst ha <;> simp only <;> omega
  · rcases ha with ha | ha | ha
    · subst ha; simp only; omega
    · subst ha; simp only; omega
    · have := hs ha; omega

/-! ## Claims on the scanner -/

/-- C1: unless the QWORD at `cbOffset` equals the `System` signature
`0x00006D6574737953` and the QWORD at `cbOffset + 8` has its low 56 bits all
zero, `VmmProcPHYS_VerifyWindowsEPROCESS` returns FALSE, for every buffer,
length and offset. -/
theorem verify_requires_signature (pb : Mem) (cb cbOffset : Nat)
    (h : ¬ (PQWORD pb (cbOffset : Int) = SYSTEM_SIGNATURE ∧
            PQWORD pb ((cbOffset : Int) + 8) % 2 ^ 56 = 0)) :
    (VmmProcPHYS_VerifyWindowsEPROCESS pb cb cbOffset).1 = some none := by
  apply verify_fst_of_not_checks
  rintro ⟨_, s1, s2⟩
  apply h
  rw [and_low56] at s2
  exact ⟨not_not.1 s1, not_not.1 s2⟩

/-- Witness for C1: an all-zero buffer of `0x508` bytes probed at `0x500`. -/
theorem verify_requires_signature_witness :
    ¬ (PQWORD zeroMem ((0x500 : Nat) : Int) = SYSTEM_SIGNATURE ∧
        PQWORD zeroMem (((0x500 : Nat) : Int) + 8) % 2 ^ 56 = 0) ∧
    (VmmProcPHYS_VerifyWindowsEPROCESS zeroMem 0x508 0x500).1 = some none :=
  ⟨by decide, verify_requires_signature zeroMem 0x508 0x500 (by decide)⟩

/-- C2: whenever `VmmProcPHYS_VerifyWindowsEPROCESS` returns TRUE, the address
stored in `*ppaPML4` has its low 12 bits zero and agrees on all higher bits
with the DirectoryTableBase field that was matched, that is the field at the
first position of the scan window that carries the header, whatever the low 12
bits of that field are. -/
theorem verify_result_page_aligned (pb : Mem) (cb cbOffset pa : Nat) (h64 : cbOffset < 2 ^ 64)
    (h : (VmmProcPHYS_VerifyWindowsEPROCESS pb cb cbOffset).1 = some (some pa)) :
    pa % 2 ^ 12 = 0 ∧
    ∃ k, k < 160 ∧ EprocessHeader pb (cbOffset - 8 * k) ∧
      (∀ j, j < k → ¬ EprocessHeader pb (cbOffset - 8 * j)) ∧
      pa / 2 ^ 12 = PQWORD pb ((cbOffset - 8 * k : Nat) : Int) / 2 ^ 12 := by
  by_cases hc : entryChecks cb cbOffset ∧ signatureChecks pb cbOffset
  · rcases verify_outcome pb cb cbOffset h64 hc.1 hc.2 with ⟨n, hn, hh, hfirst, hr⟩ | ⟨_, hr⟩
    · rw [hr] at h
      have hpa : PQWORD pb ((cbOffset - 8 * n : Nat) : Int) / 2 ^ 12 * 2 ^ 12 = pa := by
        simpa using h
      refine ⟨by omega, n, hn, hh, hfirst, by omega⟩
    · rw [hr] at h; simp at h
  · rw [verify_fst_of_not_checks pb cb cbOffset hc] at h; simp at h

set_option maxRecDepth 100000 in
/-- Witness for C2: the header with DirectoryTableBase field `0x001AA123`
yields `0x001AA000`. -/
theorem verify_result_page_aligned_witness :
    PQWORD sampleMem 0x600 = 0x001AA123 ∧
    (VmmProcPHYS_VerifyWindowsEPROCESS sampleMem 0x1000 0x800).1 = some (some 0x001AA000) ∧
    (0x001AA000 % 2 ^ 12 = 0 ∧
      ∃ k, k < 160 ∧ EprocessHeader sampleMem (0x800 - 8 * k) ∧
        (∀ j, j < k → ¬ EprocessHeader sampleMem (0x800 - 8 * j)) ∧
        0x001AA000 / 2 ^ 12 = PQWORD sampleMem ((0x800 - 8 * k : Nat) : Int) / 2 ^ 12) :=
  ⟨by decide, by decide,
    verify_result_page_aligned sampleMem 0x1000 0x800 0x001AA000 (by decide) (by decide)⟩

/-- C3: on every input that passes the entry checks and the two signature
checks, the function returns TRUE iff some position `cbOffset - 8k`, `k < 160`,
of the window carries the header; the address returned comes from the first
such position met scanning backward from `cbOffset`; and it returns FALSE when
no position of the window carries the header. -/
theorem verify_iff_header_in_window (pb : Mem) (cb cbOffset : Nat) (h64 : cbOffset < 2 ^ 64)
    (he : entryChecks cb cbOffset) (hs : signatureChecks pb cbOffset) :
    ((∃ pa, (VmmProcPHYS_VerifyWindowsEPROCESS pb cb cbOffset).1 = some (some pa)) ↔
      ∃ k, k < 160 ∧ EprocessHeader pb (cbOffset - 8 * k)) ∧
    (∀ pa, (VmmProcPHYS_VerifyWindowsEPROCESS pb cb cbOffset).1 = some (some pa) →
      ∃ k, k < 160 ∧ EprocessHeader pb (cbOffset - 8 * k) ∧
        (∀ j, j < k → ¬ EprocessHeader pb (cbOffset - 8 * j)) ∧
        pa = PQWORD pb ((cbOffset - 8 * k : Nat) : Int) / 2 ^ 12 * 2 ^ 12) ∧
    ((∀ k, k < 160 → ¬ EprocessHeader pb (cbOffset - 8 * k)) →
      (VmmProcPHYS_VerifyWindowsEPROCESS pb cb cbOffset).1 = some none) := by
  rcases verify_outcome pb cb cbOffset h64 he hs with ⟨n, hn, hh, hfirst, hr⟩ | ⟨hno, hr⟩
  · refine ⟨⟨fun _ => ⟨n, hn, hh⟩, fun _ => ⟨_, hr⟩⟩, ?_, fun hall => absurd hh (hall n hn)⟩
    intro pa hpa
    rw [hr] at hpa
    exact ⟨n, hn, hh, hfirst, by simpa using hpa.symm⟩
  · refine ⟨⟨?_, fun ⟨k, hk, hh⟩ => absurd hh (hno k hk)⟩, ?_, fun _ => hr⟩
    · rintro ⟨pa, hpa⟩
      rw [hr] at hpa; simp at hpa
    · intro pa hpa
      rw [hr] at hpa; simp at hpa

set_option maxRecDepth 100000 in
/-- Witness for C3: the sample buffer passes all four checks. -/
theorem verify_iff_header_in_window_witness :
    entryChecks 0x1000 0x800 ∧ signatureChecks sampleMem 0x800 ∧
    (((∃ pa, (VmmProcPHYS_VerifyWindowsEPROCESS sampleMem 0x1000 0x800).1 = some (some pa)) ↔
      ∃ k, k < 160 ∧ EprocessHeader sampleMem (0x800 - 8 * k)) ∧
    (∀ pa, (VmmProcPHYS_VerifyWindowsEPROCESS sampleMem 0x1000 0x800).1 = some (some pa) →
      ∃ k, k < 160 ∧ EprocessHeader sampleMem (0x800 - 8 * k) ∧
        (∀ j, j < k → ¬ EprocessHeader sampleMem (0x800 - 8 * j)) ∧
        pa = PQWORD sampleMem ((0x800 - 8 * k : Nat) : Int) / 2 ^ 12 * 2 ^ 12) ∧
    ((∀ k, k < 160 → ¬ EprocessHeader sampleMem (0x800 - 8 * k)) →
      (VmmProcPHYS_VerifyWindowsEPROCESS sampleMem 0x1000 0x800).1 = some none)) :=
  ⟨by decide, by decide,
    verify_iff_header_in_window sampleMem 0x1000 0x800 (by decide) (by decide) (by decide)⟩

set_option maxRecDepth 100000 in
/-- C4 at a failing input: a buffer of `0x508` bytes probed at `0x500` passes
the entry checks, yet the run dereferences the QWORD at offset `0x508` (past the
end) and the DWORD at offset `-4` (before the start). -/
theorem verify_reads_outside_buffer :
    entryChecks 0x508 0x500 ∧
    (⟨0x508, 8⟩ : Access) ∈ (VmmProcPHYS_VerifyWindowsEPROCESS edgeMem 0x508 0x500).2 ∧
    ¬ (⟨0x508, 8⟩ : Access).inBounds 0x508 ∧
    (⟨-4, 4⟩ : Access) ∈ (VmmProcPHYS_VerifyWindowsEPROCESS edgeMem 0x508 0x500).2 ∧
    ¬ (⟨-4, 4⟩ : Access).inBounds 0x508 := by
  refine ⟨by decide, by decide, by decide, by decide, by decide⟩

/-! ## The updater thread -/

/-- The flags are computed only when no interval is zero, and then have their
closed form. -/
theorem dueFlags_eq_some (t : ThreadProcCache) (i : Nat) (f : Flags)
    (h : dueFlags t i = some f) :
    (t.cTick_TLB ≠ 0 ∧ t.cTick_Phys ≠ 0 ∧ t.cTick_ProcTotal ≠ 0 ∧ t.cTick_ProcPartial ≠ 0 ∧
      t.cTick_Registry ≠ 0) ∧
    f = { fTLB := i % t.cTick_TLB == 0
          fPHYS := i % t.cTick_Phys == 0
          fProcTotal := i % t.cTick_ProcTotal == 0
          fProcPartial := i % t.cTick_ProcPartial == 0 && !(i % t.cTick_ProcTotal == 0)
          fRegistry := i % t.cTick_Registry == 0 } := by
  unfold dueFlags cmod at h
  by_cases h1 : t.cTick_TLB = 0
  · simp [h1] at h
  by_cases h2 : t.cTick_Phys = 0
  · simp [h1, h2] at h
  by_cases h3 : t.cTick_ProcTotal = 0
  · simp [h1, h2, h3] at h
  by_cases h4 : t.cTick_ProcPartial = 0
  · simp [h1, h2, h3, h4] at h
  by_cases h5 : t.cTick_Registry = 0
  · simp [h1, h2, h3, h4, h5] at h
  simp only [h1, h2, h3, h4, h5, if_false, Option.some_bind, Option.some.injEq] at h
  exact ⟨⟨h1, h2, h3, h4, h5⟩, h.symm⟩

/-- The flags are computed whenever no interval is zero. -/
theorem dueFlags_of_ne_zero (t : ThreadProcCache) (i : Nat)
    (h : t.cTick_TLB ≠ 0 ∧ t.cTick_Phys ≠ 0 ∧ t.cTick_ProcTotal ≠ 0 ∧ t.cTick_ProcPartial ≠ 0 ∧
      t.cTick_Registry ≠ 0) :
    ∃ f, dueFlags t i = some f := by
  obtain ⟨h1, h2, h3, h4, h5⟩ := h
  simp [dueFlags, cmod, h1, h2, h3, h4, h5]

theorem mod_beq_zero_iff_dvd (i n : Nat) : (i % n == 0) = true ↔ n ∣ i := by
  rw [beq_iff_eq, Nat.dvd_iff_mod_eq_zero]

@[simp] theorem call_ret {α : Type} (e : Event) (o : Out α) : (call e o).ret = o.ret := rfl
@[simp] theorem call_ctx {α : Type} (e : Event) (o : Out α) : (call e o).ctx = o.ctx := rfl
@[simp] theorem call_trace {α : Type} (e : Event) (o : Out α) :
    (call e o).trace = e :: o.trace := rfl
@[simp] theorem seq_ret {α β : Type} (o : Out α) (k : α → Ctx → Out β) :
    (o.seq k).ret = (k o.ret o.ctx).ret := rfl
@[simp] theorem seq_ctx {α β : Type} (o : Out α) (k : α → Ctx → Out β) :
    (o.seq k).ctx = (k o.ret o.ctx).ctx := rfl
@[simp] theorem seq_trace {α β : Type} (o : Out α) (k : α → Ctx → Out β) :
    (o.seq k).trace = o.trace ++ (k o.ret o.ctx).trace := rfl

@[simp] theorem ite_ret {α : Type} (p : Prop) [Decidable p] (a b : Out α) :
    (if p then a else b).ret = if p then a.ret else b.ret := apply_ite _ _ _ _
@[simp] theorem ite_ctx {α : Type} (p : Prop) [Decidable p] (a b : Out α) :
    (if p then a else b).ctx = if p then a.ctx else b.ctx := apply_ite _ _ _ _
@[simp] theorem ite_trace {α : Type} (p : Prop) [Decidable p] (a b : Out α) :
    (if p then a else b).trace = if p then a.trace else b.trace := apply_ite _ _ _ _
@[simp] theorem incr_tpSystem (c : Ctx) (k : StatCounter) : (c.incr k).tpSystem = c.tpSystem := rfl
@[simp] theorem incr_cfg_paCR3 (c : Ctx) (k : StatCounter) : (c.incr k).cfg_paCR3 = c.cfg_paCR3 :=
  rfl
@[simp] theorem incr_dev_fVolatileMaxAddress (c : Ctx) (k : StatCounter) :
    (c.incr k).dev_fVolatileMaxAddress = c.dev_fVolatileMaxAddress := rfl
@[simp] theorem incr_ThreadProcCache (c : Ctx) (k : StatCounter) :
    (c.incr k).ThreadProcCache = c.ThreadProcCache := rfl

/-- Calls made by `VmmProcUserCR3TryInitialize64`. -/
theorem userCR3_trace (x : World) (c : Ctx) :
    (VmmProcUserCR3TryInitialize64 x c).trace =
      [.VmmProcUserCR3TryInitialize64, .VmmInitializeMemoryModel .VMM_MEMORYMODEL_X64,
        .VmmProcessCreateEntry true 1 0 0 c.cfg_paCR3 0 "unknown_process" false 0 0,
        .VmmProcessCreateFinish] ++
      (if x.VmmProcessCreateEntry = 0 then [.VmmInitializeMemoryModel .VMM_MEMORYMODEL_NA]
        else [.VmmTlbSpider x.VmmProcessCreateEntry, .Ob_DECREF x.VmmProcessCreateEntry]) := by
  simp [VmmProcUserCR3TryInitialize64]

theorem userCR3_ret (x : World) (c : Ctx) :
    (VmmProcUserCR3TryInitialize64 x c).ret = decide (x.VmmProcessCreateEntry ≠ 0) := by
  simp only [VmmProcUserCR3TryInitialize64, call_ret, ite_ret]
  split_ifs with h <;> simp [h]

theorem userCR3_ctx (x : World) (c : Ctx) :
    (VmmProcUserCR3TryInitialize64 x c).ctx =
      if x.VmmProcessCreateEntry = 0 then c
      else { c with tpSystem := .VMM_SYSTEM_UNKNOWN_X64, kernel_paDTB := c.cfg_paCR3 } := by
  simp [VmmProcUserCR3TryInitialize64]

/-- Calls made by `VmmProc_RefreshProcesses`. -/
theorem refresh_trace (x : World) (b : Bool) (c : Ctx) :
    (VmmProc_RefreshProcesses x b c).trace =
      [.VmmProc_RefreshProcesses b,
        .InterlockedIncrement64 (if b then .cProcessRefreshFull else .cProcessRefreshPartial)] ++
      (if b = true ∧ c.tpSystem = .VMM_SYSTEM_UNKNOWN_X64 then
        (VmmProcUserCR3TryInitialize64 x (c.incr .cProcessRefreshFull)).trace else []) ++
      (if c.tpSystem = .VMM_SYSTEM_WINDOWS_X64 ∨ c.tpSystem = .VMM_SYSTEM_WINDOWS_X86 then
        .VmmProcessGet 4 ::
          (if x.VmmProcessGet 4 = 0 then []
            else [.VmmWin_EnumerateEPROCESS (x.VmmProcessGet 4) b, .Ob_DECREF (x.VmmProcessGet 4)])
        else []) := by
  cases b
  · simp [VmmProc_RefreshProcesses, refreshWindows]
  · by_cases h : c.tpSystem = .VMM_SYSTEM_UNKNOWN_X64
    · simp only [VmmProc_RefreshProcesses, refreshWindows, seq_trace, seq_ctx, seq_ret, call_trace,
        call_ctx, call_ret, ite_trace, ite_ctx, ite_ret, userCR3_ctx, incr_tpSystem, h]
      split_ifs <;> simp_all
    · simp [VmmProc_RefreshProcesses, refreshWindows, h]

/-- The process refresh never touches the lock and enters itself once. -/
theorem refresh_trace_props (x : World) (b : Bool) (c : Ctx) :
    Event.EnterCriticalSection ∉ (VmmProc_RefreshProcesses x b c).trace ∧
    Event.LeaveCriticalSection ∉ (VmmProc_RefreshProcesses x b c).trace ∧
    (VmmProc_RefreshProcesses x b c).trace.filter Event.isRefreshCall =
      [.VmmProc_RefreshProcesses b] := by
  rw [refresh_trace, userCR3_trace]
  refine ⟨?_, ?_, ?_⟩ <;> split_ifs <;> simp [Event.isRefreshCall, List.filter_cons]

theorem physBlock_trace (f : Flags) (c : Ctx) :
    (physBlock f c).trace =
      if f.fPHYS = true then
        [.VmmCacheClear .VMM_CACHE_TAG_PHYS, .InterlockedIncrement64 .cPhysRefreshCache,
          .VmmCacheClear .VMM_CACHE_TAG_PAGING, .InterlockedIncrement64 .cPageRefreshCache,
          .ObSet_Clear_PAGING_FAILED]
      else [] := by
  simp [physBlock]

theorem tlbBlock_trace (f : Flags) (c : Ctx) :
    (tlbBlock f c).trace =
      if f.fTLB = true then
        [.VmmCacheClear .VMM_CACHE_TAG_TLB, .InterlockedIncrement64 .cTlbRefreshCache]
      else [] := by
  simp [tlbBlock]

theorem registryBlock_trace (f : Flags) (c : Ctx) :
    (registryBlock f c).trace =
      if f.fRegistry = true then
        [.VmmWinReg_Refresh, .VmmWinUser_Refresh, .VmmWinPhysMemMap_Refresh,
          .PluginManager_Notify .VMMDLL_PLUGIN_EVENT_REFRESH_REGISTRY]
      else [] := by
  simp [registryBlock]

theorem maxAddressBlock_trace (x : World) (c : Ctx) :
    (maxAddressBlock x c).trace =
      if c.dev_fVolatileMaxAddress = true then [.LeechCore_GetOption_ADDR_MAX] else [] := by
  simp [maxAddressBlock]

/-- The context in which a tick calls the process refresh: after the two cache
blocks. -/
theorem clears_ctx (f : Flags) (c : Ctx) :
    (tlbBlock f (physBlock f c).ctx).ctx.tpSystem = c.tpSystem ∧
    (tlbBlock f (physBlock f c).ctx).ctx.cfg_paCR3 = c.cfg_paCR3 ∧
    (tlbBlock f (physBlock f c).ctx).ctx.dev_fVolatileMaxAddress = c.dev_fVolatileMaxAddress ∧
    (tlbBlock f (physBlock f c).ctx).ctx.ThreadProcCache = c.ThreadProcCache := by
  simp only [tlbBlock, physBlock, ite_ctx, call_ctx]
  split_ifs <;> simp

theorem refresh_ctx (x : World) (b : Bool) (c : Ctx) :
    (VmmProc_RefreshProcesses x b c).ctx.dev_fVolatileMaxAddress = c.dev_fVolatileMaxAddress ∧
    (VmmProc_RefreshProcesses x b c).ctx.ThreadProcCache = c.ThreadProcCache := by
  simp only [VmmProc_RefreshProcesses, refreshWindows, seq_ctx, seq_ret, call_ctx, call_ret,
    ite_ctx, ite_ret, userCR3_ctx]
  split_ifs <;> simp

theorem procBlock_ret (x : World) (f : Flags) (c : Ctx) :
    (procBlock x f c).ret =
      if (f.fProcPartial || f.fProcTotal) = true then (VmmProc_RefreshProcesses x f.fProcTotal c).ret
      else true := by
  simp only [procBlock, seq_ret, call_ret, ite_ret]
  split_ifs <;> simp_all

theorem procBlock_trace (x : World) (f : Flags) (c : Ctx) :
    (procBlock x f c).trace =
      if (f.fProcPartial || f.fProcTotal) = true then
        (VmmProc_RefreshProcesses x f.fProcTotal c).trace ++
          (if (VmmProc_RefreshProcesses x f.fProcTotal c).ret = true then
            (if c.dev_fVolatileMaxAddress = true then [.LeechCore_GetOption_ADDR_MAX] else []) ++
            (if f.fProcTotal = true then
              [.VmmWinObj_Refresh,
                .PluginManager_Notify .VMMDLL_PLUGIN_EVENT_REFRESH_PROCESS_TOTAL] else []) ++
            [.MmPfn_Refresh]
          else [.LeaveCriticalSection])
      else [] := by
  simp only [procBlock, seq_trace, seq_ctx, seq_ret, call_trace, ite_trace, maxAddressBlock_trace,
    (refresh_ctx x f.fProcTotal c).1]
  split_ifs <;> simp_all

theorem procBlock_ThreadProcCache (x : World) (f : Flags) (c : Ctx) :
    (procBlock x f c).ctx.ThreadProcCache = c.ThreadProcCache := by
  simp only [procBlock, maxAddressBlock, seq_ctx, seq_ret, call_ctx, ite_ctx]
  split_ifs <;> simp [(refresh_ctx x f.fProcTotal c).2]

theorem registryBlock_ctx (f : Flags) (c : Ctx) : (registryBlock f c).ctx = c := by
  simp [registryBlock]

/-- Calls made by one pass through the loop body whose flags are `f`. -/
theorem loopBody_trace (x : World) (i : Nat) (c : Ctx) (f : Flags)
    (h : dueFlags c.ThreadProcCache i = some f) :
    (loopBody x i c).trace =
      .Sleep c.ThreadProcCache.cMs_TickPeriod :: .EnterCriticalSection ::
        ((physBlock f c).trace ++ ((tlbBlock f (physBlock f c).ctx).trace ++
          ((procBlock x f (tlbBlock f (physBlock f c).ctx).ctx).trace ++
            (if (procBlock x f (tlbBlock f (physBlock f c).ctx).ctx).ret = true then
              (if f.fRegistry = true then
                [.VmmWinReg_Refresh, .VmmWinUser_Refresh, .VmmWinPhysMemMap_Refresh,
                  .PluginManager_Notify .VMMDLL_PLUGIN_EVENT_REFRESH_REGISTRY]
                else []) ++ [.LeaveCriticalSection]
            else [])))) := by
  simp only [loopBody, h, call_trace, seq_trace, seq_ctx, seq_ret, ite_trace, registryBlock_trace]
  split_ifs <;> simp_all

theorem loopBody_ret (x : World) (i : Nat) (c : Ctx) (f : Flags)
    (h : dueFlags c.ThreadProcCache i = some f) :
    (loopBody x i c).ret =
      if (procBlock x f (tlbBlock f (physBlock f c).ctx).ctx).ret = true then .next else .fail := by
  simp only [loopBody, h, call_ret, seq_ret, seq_ctx, ite_ret]
  split_ifs <;> simp_all

theorem loopBody_ThreadProcCache (x : World) (i : Nat) (c : Ctx) :
    (loopBody x i c).ctx.ThreadProcCache = c.ThreadProcCache := by
  unfold loopBody
  cases h : dueFlags c.ThreadProcCache i with
  | none => simp
  | some f =>
    simp only [call_ctx, seq_ctx, seq_ret, ite_ctx, registryBlock_ctx]
    split_ifs <;>
      rw [procBlock_ThreadProcCache, (clears_ctx f c).2.2.2]

/-! ## Claims on the tick schedule -/

/-- C5: on every tick whose flags are computed, the physical-cache, TLB,
process-total and registry flags are true exactly when the tick counter `i` is
a multiple of the interval of their domain; and the flags are computed whenever
no interval is zero. -/
theorem dueFlags_fire_on_multiples (t : ThreadProcCache) (i : Nat) :
    (∀ f, dueFlags t i = some f →
      (f.fPHYS = true ↔ t.cTick_Phys ∣ i) ∧ (f.fTLB = true ↔ t.cTick_TLB ∣ i) ∧
      (f.fProcTotal = true ↔ t.cTick_ProcTotal ∣ i) ∧
      (f.fRegistry = true ↔ t.cTick_Registry ∣ i)) ∧
    ((t.cTick_TLB ≠ 0 ∧ t.cTick_Phys ≠ 0 ∧ t.cTick_ProcTotal ≠ 0 ∧ t.cTick_ProcPartial ≠ 0 ∧
      t.cTick_Registry ≠ 0) → ∃ f, dueFlags t i = some f) := by
  refine ⟨fun f h => ?_, dueFlags_of_ne_zero t i⟩
  obtain ⟨_, rfl⟩ := dueFlags_eq_some t i f h
  exact ⟨mod_beq_zero_iff_dvd _ _, mod_beq_zero_iff_dvd _ _, mod_beq_zero_iff_dvd _ _,
    mod_beq_zero_iff_dvd _ _⟩

/-- Witness for C5: the local table on tick 150, where the physical-cache, TLB
and process-total flags fire and the registry flag does not. -/
theorem dueFlags_fire_on_multiples_witness :
    dueFlags (installTickTable sampleCtx).ThreadProcCache 150 =
      some { fPHYS := true, fTLB := true, fProcPartial := false, fProcTotal := true,
             fRegistry := false } ∧
    ((true = true ↔ (installTickTable sampleCtx).ThreadProcCache.cTick_Phys ∣ 150) ∧
      (true = true ↔ (installTickTable sampleCtx).ThreadProcCache.cTick_TLB ∣ 150) ∧
      (true = true ↔ (installTickTable sampleCtx).ThreadProcCache.cTick_ProcTotal ∣ 150) ∧
      (false = true ↔ (installTickTable sampleCtx).ThreadProcCache.cTick_Registry ∣ 150)) ∧
    ∃ f, dueFlags (installTickTable sampleCtx).ThreadProcCache 150 = some f :=
  ⟨by decide,
    (dueFlags_fire_on_multiples (installTickTable sampleCtx).ThreadProcCache 150).1
      { fPHYS := true, fTLB := true, fProcPartial := false, fProcTotal := true,
        fRegistry := false } (by decide),
    (dueFlags_fire_on_multiples (installTickTable sampleCtx).ThreadProcCache 150).2 (by decide)⟩

/-- C6: on every tick whose flags are computed, the partial flag is true iff
the counter is a multiple of the partial interval and not a multiple of the
total interval; the partial and total flags are never both true; and the tick
enters `VmmProc_RefreshProcesses` once, with `fRefreshTotal` the total flag,
when one of the two is true and not at all otherwise. -/
theorem partial_refresh_excludes_total (x : World) (i : Nat) (c : Ctx) (f : Flags)
    (h : dueFlags c.ThreadProcCache i = some f) :
    (f.fProcPartial = true ↔
      (c.ThreadProcCache.cTick_ProcPartial ∣ i ∧ ¬ c.ThreadProcCache.cTick_ProcTotal ∣ i)) ∧
    ¬ (f.fProcPartial = true ∧ f.fProcTotal = true) ∧
    (loopBody x i c).trace.filter Event.isRefreshCall =
      (if f.fProcPartial = true ∨ f.fProcTotal = true then [.VmmProc_RefreshProcesses f.fProcTotal]
        else []) := by
  have hf := (dueFlags_eq_some _ _ _ h).2
  refine ⟨?_, ?_, ?_⟩
  · rw [hf]
    simp only [Bool.and_eq_true, Bool.not_eq_true', ← mod_beq_zero_iff_dvd]
    simp
  · rw [hf]
    simp
  · rw [loopBody_trace x i c f h, physBlock_trace, tlbBlock_trace, procBlock_trace, procBlock_ret]
    have hr := (refresh_trace_props x f.fProcTotal (tlbBlock f (physBlock f c).ctx).ctx).2.2
    generalize VmmProc_RefreshProcesses x f.fProcTotal (tlbBlock f (physBlock f c).ctx).ctx = R
      at hr ⊢
    generalize (tlbBlock f (physBlock f c).ctx).ctx.dev_fVolatileMaxAddress = m
    obtain ⟨fPHYS, fTLB, fPartial, fTotal, fReg⟩ := f
    simp only at hr ⊢
    cases fPHYS <;> cases fTLB <;> cases fPartial <;> cases fTotal <;> cases fReg <;>
      cases hR : R.ret <;> cases m <;>
      simp [List.filter_cons, Event.isRefreshCall, hr]

/-- Witness for C6: the local table on tick 50 (partial refresh) in a context
whose thread has installed its table. -/
theorem partial_refresh_excludes_total_witness :
    dueFlags (installTickTable sampleCtx).ThreadProcCache 50 =
      some { fPHYS := true, fTLB := true, fProcPartial := true, fProcTotal := false,
             fRegistry := false } ∧
    ((true = true ↔
      ((installTickTable sampleCtx).ThreadProcCache.cTick_ProcPartial ∣ 50 ∧
        ¬ (installTickTable sampleCtx).ThreadProcCache.cTick_ProcTotal ∣ 50)) ∧
    ¬ (true = true ∧ false = true) ∧
    (loopBody sampleWorld 50 (installTickTable sampleCtx)).trace.filter Event.isRefreshCall =
      (if true = true ∨ false = true then [.VmmProc_RefreshProcesses false] else [])) :=
  ⟨by decide,
    partial_refresh_excludes_total sampleWorld 50 (installTickTable sampleCtx)
      { fPHYS := true, fTLB := true, fProcPartial := true, fProcTotal := false,
        fRegistry := false } (by decide)⟩

/-! ## The tick as a run of its due actions -/

theorem filter_due_tickActions (f : Flags) (c : Ctx) :
    tickActions.filter (Action.due f c) = dueActions f c := by
  obtain ⟨fPHYS, fTLB, fPartial, fTotal, fReg⟩ := f
  cases fPHYS <;> cases fTLB <;> cases fPartial <;> cases fTotal <;> cases fReg <;>
    cases hm : c.dev_fVolatileMaxAddress <;>
    simp [tickActions, dueActions, Action.due, List.filter_cons, hm]

theorem runActions_append (x : World) (b : Bool) (l1 l2 : List Action) :
    ∀ c, runActions x b (l1 ++ l2) c = (runActions x b l1 c).seq fun _ c => runActions x b l2 c := by
  induction l1 with
  | nil => intro c; rfl
  | cons a as ih =>
    intro c
    simp only [List.cons_append, runActions, Out.seq, List.append_eq, ih, List.append_assoc]

theorem physBlock_eq (x : World) (b : Bool) (f : Flags) (c : Ctx) :
    physBlock f c = runActions x b
      (if f.fPHYS = true then [.clearPhysCache, .clearPagingCache, .clearPagingFailed] else [])
      c := by
  unfold physBlock
  split_ifs <;> simp [runActions, Action.run, Out.seq, call]

theorem tlbBlock_eq (x : World) (b : Bool) (f : Flags) (c : Ctx) :
    tlbBlock f c = runActions x b (if f.fTLB = true then [.clearTlbCache] else []) c := by
  unfold tlbBlock
  split_ifs <;> simp [runActions, Action.run, Out.seq, call]

theorem registryBlock_eq (x : World) (b : Bool) (f : Flags) (c : Ctx) :
    registryBlock f c = runActions x b
      (if f.fRegistry = true then
        [.registryRefresh, .userProfileRefresh, .physMemMapRefresh, .notifyRegistry] else [])
      c := by
  unfold registryBlock
  split_ifs <;> simp [runActions, Action.run, Out.seq, call]

theorem maxAddressBlock_eq (x : World) (b : Bool) (c : Ctx) :
    maxAddressBlock x c = runActions x b
      (if c.dev_fVolatileMaxAddress = true then [.maxAddressUpdate] else []) c := by
  unfold maxAddressBlock
  by_cases hm : c.dev_fVolatileMaxAddress = true <;>
    by_cases hg : x.LeechCore_GetOption = true <;>
    by_cases hp : x.paMax > 0x01000000 <;>
    simp [runActions, Action.run, Out.seq, call, hm, hg, hp]

/-- The process block, when its refresh succeeds or is not due, is its due
actions performed in order. -/
theorem procBlock_eq (x : World) (f : Flags) (c : Ctx)
    (hok : (f.fProcPartial || f.fProcTotal) = true →
      (VmmProc_RefreshProcesses x f.fProcTotal c).ret = true) :
    (procBlock x f c).ret = true ∧
    (procBlock x f c).ctx = (runActions x f.fProcTotal
      (if (f.fProcPartial || f.fProcTotal) = true then
        .processRefresh ::
          ((if c.dev_fVolatileMaxAddress = true then [.maxAddressUpdate] else []) ++
          ((if f.fProcTotal = true then [.objectRefresh, .notifyProcessTotal] else []) ++
          [.pfnRefresh]))
      else []) c).ctx ∧
    (procBlock x f c).trace = (runActions x f.fProcTotal
      (if (f.fProcPartial || f.fProcTotal) = true then
        .processRefresh ::
          ((if c.dev_fVolatileMaxAddress = true then [.maxAddressUpdate] else []) ++
          ((if f.fProcTotal = true then [.objectRefresh, .notifyProcessTotal] else []) ++
          [.pfnRefresh]))
      else []) c).trace := by
  have hv := (refresh_ctx x f.fProcTotal c).1
  unfold procBlock
  by_cases hd : (f.fProcPartial || f.fProcTotal) = true
  · have hr := hok hd
    simp only [hd, if_true, seq_ret, seq_ctx, seq_trace, hr, Bool.not_true, Bool.false_eq_true,
      if_false, call_ret, call_ctx, call_trace, runActions, Action.run, runActions_append,
      maxAddressBlock_eq x f.fProcTotal, hv]
    refine ⟨trivial, ?_, ?_⟩
    · cases f.fProcTotal <;> simp [runActions, Action.run]
    · cases f.fProcTotal <;> simp [runActions, Action.run]
  · simp [hd, runActions]

theorem Out.ext3 {α : Type} (a b : Out α) (h1 : a.ret = b.ret) (h2 : a.ctx = b.ctx)
    (h3 : a.trace = b.trace) : a = b := by
  cases a; cases b; simp_all

/-- With the process refresh succeeding when due, the locked part of the loop
body is the due members of `tickActions` performed in order. -/
theorem loopBody_eq_runActions (x : World) (i : Nat) (c : Ctx) (f : Flags)
    (h : dueFlags c.ThreadProcCache i = some f)
    (hok : (f.fProcPartial || f.fProcTotal) = true →
      (VmmProc_RefreshProcesses x f.fProcTotal (tlbBlock f (physBlock f c).ctx).ctx).ret = true) :
    loopBody x i c =
      call (.Sleep c.ThreadProcCache.cMs_TickPeriod) (call .EnterCriticalSection
        ((runActions x f.fProcTotal (tickActions.filter (Action.due f c)) c).seq fun _ c =>
          call .LeaveCriticalSection ⟨.next, c, []⟩)) := by
  obtain ⟨hp1, hp2, hp3⟩ := procBlock_eq x f (tlbBlock f (physBlock f c).ctx).ctx hok
  have hv := (clears_ctx f c).2.2.1
  rw [hv] at hp2 hp3
  rw [filter_due_tickActions]
  unfold dueActions
  apply Out.ext3
  · simp only [loopBody, h, call_ret, seq_ret, hp1, Bool.not_true, Bool.false_eq_true, if_false,
      ite_ret]
  · simp only [loopBody, h, call_ctx, seq_ctx, seq_ret, hp1, Bool.not_true, Bool.false_eq_true,
      if_false, ite_ctx, runActions_append, hp2, registryBlock_eq x f.fProcTotal,
      ← physBlock_eq x f.fProcTotal, ← tlbBlock_eq x f.fProcTotal]
  · simp only [loopBody, h, call_trace, seq_trace, seq_ctx, seq_ret, hp1, Bool.not_true,
      Bool.false_eq_true, if_false, ite_trace, runActions_append, hp2, hp3,
      registryBlock_eq x f.fProcTotal, ← physBlock_eq x f.fProcTotal,
      ← tlbBlock_eq x f.fProcTotal, List.append_assoc]

theorem refresh_dev_paMax (x : World) (b : Bool) (c : Ctx) :
    (VmmProc_RefreshProcesses x b c).ctx.dev_paMax = c.dev_paMax := by
  simp only [VmmProc_RefreshProcesses, refreshWindows, seq_ctx, seq_ret, call_ctx, call_ret,
    ite_ctx, ite_ret, userCR3_ctx]
  split_ifs <;> simp [Ctx.incr]

theorem Action.run_dev_paMax (x : World) (b : Bool) (a : Action) (c : Ctx) :
    (a.run x b c).ctx.dev_paMax =
      if a = .maxAddressUpdate ∧ x.LeechCore_GetOption = true ∧ x.paMax > 0x01000000 then x.paMax
      else c.dev_paMax := by
  cases a <;> simp [Action.run, Ctx.incr, refresh_dev_paMax]
  split_ifs <;> rfl

/-- Among the actions only the maximum-address update writes `dev.paMax`, and
only when its query succeeded with a value above `0x01000000`. -/
theorem runActions_dev_paMax (x : World) (b : Bool) (l : List Action) :
    ∀ c, (runActions x b l c).ctx.dev_paMax =
      if Action.maxAddressUpdate ∈ l ∧ x.LeechCore_GetOption = true ∧ x.paMax > 0x01000000 then
        x.paMax
      else c.dev_paMax := by
  induction l with
  | nil => intro c; simp [runActions]
  | cons a as ih =>
    intro c
    simp only [runActions, seq_ctx, ih, Action.run_dev_paMax, List.mem_cons]
    by_cases h3 : x.LeechCore_GetOption = true ∧ x.paMax > 0x01000000
    · by_cases h2 : a = Action.maxAddressUpdate
      · subst h2
        simp [h3]
      · have h2' : ¬ Action.maxAddressUpdate = a := fun h => h2 h.symm
        simp only [h2, h2', h3, false_and, false_or, if_false, and_true]
    · simp only [h3, and_false, if_false]

theorem Action.run_no_lock (x : World) (b : Bool) (a : Action) (c : Ctx) :
    Event.EnterCriticalSection ∉ (a.run x b c).trace ∧
    Event.LeaveCriticalSection ∉ (a.run x b c).trace := by
  have hp := refresh_trace_props x b c
  cases a <;> simp [Action.run, hp.1, hp.2.1]

/-- No action takes or releases the lock. -/
theorem runActions_no_lock (x : World) (b : Bool) (l : List Action) :
    ∀ c, Event.EnterCriticalSection ∉ (runActions x b l c).trace ∧
      Event.LeaveCriticalSection ∉ (runActions x b l c).trace := by
  induction l with
  | nil => intro c; simp [runActions]
  | cons a as ih =>
    intro c
    have h1 := Action.run_no_lock x b a c
    have h2 := ih (a.run x b c).ctx
    simp only [runActions, seq_trace, List.mem_append, not_or]
    exact ⟨⟨h1.1, h2.1⟩, ⟨h1.2, h2.2⟩⟩

theorem maxAddressUpdate_due (f : Flags) (c : Ctx) :
    Action.maxAddressUpdate ∈ tickActions.filter (Action.due f c) ↔
      ((f.fProcPartial || f.fProcTotal) = true ∧ c.dev_fVolatileMaxAddress = true) := by
  simp [tickActions, Action.due]

/-- C8: on every tick whose flags are computed and whose process refresh, if
due, succeeds, the pass through the loop body sleeps, takes the lock, performs
exactly the due members of `tickActions` in their order, and releases the
lock: its calls and the context it leaves are those of the due actions run one
after the other, and the lock is neither taken nor released in between.  In
particular `dev.paMax` is overwritten, with the queried value, exactly when a
process refresh is due on a backend with volatile maximum address and
`LeechCore_GetOption` succeeded with a value above `0x01000000`. -/
theorem tick_actions_in_order (x : World) (i : Nat) (c : Ctx) (f : Flags)
    (h : dueFlags c.ThreadProcCache i = some f)
    (hok : (f.fProcPartial || f.fProcTotal) = true →
      (VmmProc_RefreshProcesses x f.fProcTotal (tlbBlock f (physBlock f c).ctx).ctx).ret = true) :
    (loopBody x i c).ret = .next ∧
    (loopBody x i c).trace =
      [.Sleep c.ThreadProcCache.cMs_TickPeriod, .EnterCriticalSection] ++
      (runActions x f.fProcTotal (tickActions.filter (Action.due f c)) c).trace ++
      [.LeaveCriticalSection] ∧
    (loopBody x i c).ctx =
      (runActions x f.fProcTotal (tickActions.filter (Action.due f c)) c).ctx ∧
    Event.EnterCriticalSection ∉
      (runActions x f.fProcTotal (tickActions.filter (Action.due f c)) c).trace ∧
    Event.LeaveCriticalSection ∉
      (runActions x f.fProcTotal (tickActions.filter (Action.due f c)) c).trace ∧
    (loopBody x i c).ctx.dev_paMax =
      (if (f.fProcPartial || f.fProcTotal) = true ∧ c.dev_fVolatileMaxAddress = true ∧
          x.LeechCore_GetOption = true ∧ x.paMax > 0x01000000 then x.paMax
        else c.dev_paMax) := by
  have he := loopBody_eq_runActions x i c f h hok
  have hl := runActions_no_lock x f.fProcTotal (tickActions.filter (Action.due f c)) c
  refine ⟨?_, ?_, ?_, hl.1, hl.2, ?_⟩
  · rw [he]; rfl
  · rw [he]; simp
  · rw [he]; rfl
  · rw [he]
    simp only [call_ctx, seq_ctx, runActions_dev_paMax, maxAddressUpdate_due, and_assoc]

/-! ## The loop as a whole -/

theorem threadExit_trace (c : Ctx) :
    (threadExit c).trace =
      if c.ThreadProcCache.hThread ≠ 0 then [.CloseHandle c.ThreadProcCache.hThread] else [] := by
  simp [threadExit]

theorem threadExit_ret (c : Ctx) : (threadExit c).ret = 0 := by
  simp [threadExit]

theorem threadExit_hThread (c : Ctx) : (threadExit c).ctx.ThreadProcCache.hThread = 0 := by
  simp [threadExit]

/-- Ticks that leave the thread running can be followed by further ticks: the
run over `pre ++ rest` is the run over `pre` continued over `rest`. -/
theorem updaterLoop_append (rest : List Tick) (pre : List Tick) :
    ∀ (i0 : Nat) (c0 : Ctx) (i : Nat), (updaterLoop pre i0 c0).ret = .running i →
      updaterLoop (pre ++ rest) i0 c0 =
        (updaterLoop pre i0 c0).seq fun _ c => updaterLoop rest i c := by
  induction pre with
  | nil =>
    intro i0 c0 i h
    simp only [updaterLoop, ThreadStatus.running.injEq] at h
    subst h
    simp [updaterLoop, Out.seq]
  | cons t ts ih =>
    intro i0 c0 i h
    simp only [List.cons_append, updaterLoop] at h ⊢
    split_ifs at h ⊢ with hstop
    · simp at h
    · cases hst : (loopBody t.world (qadd i0 1) c0).ret with
      | next =>
        simp only [seq_ret, hst] at h
        simp only [Out.seq, hst, List.append_eq, ih _ _ i h, List.append_assoc]
      | fail => simp [hst] at h
      | divByZero => simp [hst] at h

theorem physBlock_counts (f : Flags) (c : Ctx) :
    (physBlock f c).trace.count .EnterCriticalSection = 0 ∧
    (physBlock f c).trace.count .LeaveCriticalSection = 0 := by
  rw [physBlock_trace]
  split_ifs <;> simp

theorem tlbBlock_counts (f : Flags) (c : Ctx) :
    (tlbBlock f c).trace.count .EnterCriticalSection = 0 ∧
    (tlbBlock f c).trace.count .LeaveCriticalSection = 0 := by
  rw [tlbBlock_trace]
  split_ifs <;> simp

theorem procBlock_counts (x : World) (f : Flags) (c : Ctx) :
    (procBlock x f c).trace.count .EnterCriticalSection = 0 ∧
    (procBlock x f c).trace.count .LeaveCriticalSection =
      if (procBlock x f c).ret = true then 0 else 1 := by
  rw [procBlock_trace, procBlock_ret]
  have hp := refresh_trace_props x f.fProcTotal c
  have h1 := List.count_eq_zero.2 hp.1
  have h2 := List.count_eq_zero.2 hp.2.1
  generalize VmmProc_RefreshProcesses x f.fProcTotal c = R at h1 h2 ⊢
  cases f.fProcPartial <;> cases f.fProcTotal <;> cases hR : R.ret <;>
    cases c.dev_fVolatileMaxAddress <;> simp [List.count_cons, h1, h2]

/-- One pass through the loop body takes the lock as often as it releases
it. -/
theorem loopBody_balanced (x : World) (i : Nat) (c : Ctx) :
    (loopBody x i c).trace.count .EnterCriticalSection =
      (loopBody x i c).trace.count .LeaveCriticalSection := by
  cases h : dueFlags c.ThreadProcCache i with
  | none => simp [loopBody, h]
  | some f =>
    rw [loopBody_trace x i c f h]
    have h1 := physBlock_counts f c
    have h2 := tlbBlock_counts f (physBlock f c).ctx
    have h3 := procBlock_counts x f (tlbBlock f (physBlock f c).ctx).ctx
    simp only [List.count_cons, List.count_append, h1.1, h1.2, h2.1, h2.2, h3.1, h3.2]
    cases (procBlock x f (tlbBlock f (physBlock f c).ctx).ctx).ret <;> cases f.fRegistry <;> simp

/-- Over any run of the thread, the lock is taken as often as it is
released. -/
theorem updaterLoop_balanced (ticks : List Tick) :
    ∀ (i0 : Nat) (c0 : Ctx),
      (updaterLoop ticks i0 c0).trace.count .EnterCriticalSection =
        (updaterLoop ticks i0 c0).trace.count .LeaveCriticalSection := by
  induction ticks with
  | nil => intro i0 c0; simp [updaterLoop]
  | cons t ts ih =>
    intro i0 c0
    simp only [updaterLoop]
    split_ifs with hstop
    · simp only [seq_trace, threadExit_trace]
      split_ifs <;> simp
    · have hb := loopBody_balanced t.world (qadd i0 1) c0
      cases hst : (loopBody t.world (qadd i0 1) c0).ret with
      | next => simp only [seq_trace, hst, List.count_append, hb, ih]
      | fail =>
        simp only [seq_trace, hst, List.count_append, hb, threadExit_trace]
        split_ifs <;> simp
      | divByZero => simp [hst, List.count_append, hb]

/-- A pass through the loop body that ends in `goto fail` is followed by the
exit code only. -/
theorem updaterLoop_fail (t : Tick) (post : List Tick) (i : Nat) (c : Ctx)
    (hen : (c.ThreadProcCache.fEnabled && !t.fStop) = true)
    (hst : (loopBody t.world (qadd i 1) c).ret = .fail) :
    updaterLoop (t :: post) i c =
      (loopBody t.world (qadd i 1) c).seq fun _ c =>
        (threadExit c).seq fun r c => ⟨.returned r, c, []⟩ := by
  simp only [updaterLoop, hen, Bool.not_true, Bool.false_eq_true, if_false]
  simp only [Out.seq, hst]

/-- C7: when, after ticks `pre` that leave the thread running, the process
refresh is due on the next tick and `VmmProc_RefreshProcesses` returns FALSE,
the thread returns on that tick whatever ticks `post` would follow: after the
refresh its only calls are `LeaveCriticalSection` and, for a non-NULL thread
handle, `CloseHandle`; the handle is left NULL; and over the whole run the lock
is taken as often as it is released. -/
theorem updater_stops_on_refresh_failure (pre post : List Tick) (t : Tick) (c : Ctx) (i : Nat)
    (f : Flags)
    (hpre : (VmmProcCacheUpdaterThread pre c).ret = .running i)
    (hen : ((VmmProcCacheUpdaterThread pre c).ctx.ThreadProcCache.fEnabled && !t.fStop) = true)
    (hf : dueFlags (VmmProcCacheUpdaterThread pre c).ctx.ThreadProcCache (qadd i 1) = some f)
    (hdue : (f.fProcPartial || f.fProcTotal) = true)
    (hfail : (VmmProc_RefreshProcesses t.world f.fProcTotal
      (tlbBlock f (physBlock f (VmmProcCacheUpdaterThread pre c).ctx).ctx).ctx).ret = false) :
    (VmmProcCacheUpdaterThread (pre ++ t :: post) c).ret = .returned 0 ∧
    (VmmProcCacheUpdaterThread (pre ++ t :: post) c).trace =
      (VmmProcCacheUpdaterThread pre c).trace ++
      [.Sleep (VmmProcCacheUpdaterThread pre c).ctx.ThreadProcCache.cMs_TickPeriod,
        .EnterCriticalSection] ++
      (physBlock f (VmmProcCacheUpdaterThread pre c).ctx).trace ++
      (tlbBlock f (physBlock f (VmmProcCacheUpdaterThread pre c).ctx).ctx).trace ++
      (VmmProc_RefreshProcesses t.world f.fProcTotal
        (tlbBlock f (physBlock f (VmmProcCacheUpdaterThread pre c).ctx).ctx).ctx).trace ++
      [.LeaveCriticalSection] ++
      (if (VmmProcCacheUpdaterThread pre c).ctx.ThreadProcCache.hThread ≠ 0 then
        [.CloseHandle (VmmProcCacheUpdaterThread pre c).ctx.ThreadProcCache.hThread] else []) ∧
    (VmmProcCacheUpdaterThread (pre ++ t :: post) c).ctx.ThreadProcCache.hThread = 0 ∧
    (VmmProcCacheUpdaterThread (pre ++ t :: post) c).trace.count .EnterCriticalSection =
      (VmmProcCacheUpdaterThread (pre ++ t :: post) c).trace.count .LeaveCriticalSection := by
  refine ⟨?_, ?_, ?_, updaterLoop_balanced _ _ _⟩ <;>
    unfold VmmProcCacheUpdaterThread at hpre hen hf hfail ⊢ <;>
    rw [updaterLoop_append _ _ _ _ _ hpre] <;>
    generalize (updaterLoop pre 0 (installTickTable c)) = P at hen hf hfail ⊢
  all_goals
    have hpr : (procBlock t.world f (tlbBlock f (physBlock f P.ctx).ctx).ctx).ret = false := by
      rw [procBlock_ret, if_pos hdue, hfail]
    have hst : (loopBody t.world (qadd i 1) P.ctx).ret = .fail := by
      rw [loopBody_ret _ _ _ f hf, hpr]; simp
    have hth := loopBody_ThreadProcCache t.world (qadd i 1) P.ctx
    have hrun := updaterLoop_fail t post i P.ctx hen hst
  · simp [hrun, threadExit_ret]
  · simp only [seq_trace, seq_ctx, seq_ret, hrun, threadExit_trace, hth,
      loopBody_trace _ _ _ f hf, hpr, procBlock_trace, if_pos hdue, hfail]
    simp
  · simp [hrun, threadExit_hThread]

set_option maxRecDepth 100000 in
/-- Witness for C7: 49 ticks pass, on tick 50 the partial refresh finds no
system process. -/
theorem updater_stops_on_refresh_failure_witness :
    (VmmProcCacheUpdaterThread (List.replicate 49 okTick) liveCtx).ret = .running 49 ∧
    (VmmProcCacheUpdaterThread (List.replicate 49 okTick ++ lostTick :: [okTick]) liveCtx).ret =
      .returned 0 ∧
    (VmmProcCacheUpdaterThread (List.replicate 49 okTick ++ lostTick :: [okTick])
      liveCtx).ctx.ThreadProcCache.hThread = 0 ∧
    (VmmProcCacheUpdaterThread (List.replicate 49 okTick ++ lostTick :: [okTick])
        liveCtx).trace.count .EnterCriticalSection =
      (VmmProcCacheUpdaterThread (List.replicate 49 okTick ++ lostTick :: [okTick])
        liveCtx).trace.count .LeaveCriticalSection :=
  have h := updater_stops_on_refresh_failure (List.replicate 49 okTick) [okTick] lostTick liveCtx 49
    { fPHYS := true, fTLB := true, fProcPartial := true, fProcTotal := false, fRegistry := false }
    (by decide) (by decide) (by decide) (by decide) (by decide)
  ⟨by decide, h.1, h.2.2.1, h.2.2.2⟩

set_option maxRecDepth 100000 in
/-- Witness for C8: tick 150 of the local table on a Windows system, where the
cache clears and the total refresh are due and the registry group is not; the
maximum address `0x200000000` reported by the device is stored. -/
theorem tick_actions_in_order_witness :
    dueFlags (installTickTable liveCtx).ThreadProcCache 150 =
      some { fPHYS := true, fTLB := true, fProcPartial := false, fProcTotal := true,
             fRegistry := false } ∧
    (loopBody okTick.world 150 (installTickTable liveCtx)).ret = .next ∧
    (loopBody okTick.world 150 (installTickTable liveCtx)).trace =
      [.Sleep 100, .EnterCriticalSection,
        .VmmCacheClear .VMM_CACHE_TAG_PHYS, .InterlockedIncrement64 .cPhysRefreshCache,
        .VmmCacheClear .VMM_CACHE_TAG_PAGING, .InterlockedIncrement64 .cPageRefreshCache,
        .ObSet_Clear_PAGING_FAILED,
        .VmmCacheClear .VMM_CACHE_TAG_TLB, .InterlockedIncrement64 .cTlbRefreshCache,
        .VmmProc_RefreshProcesses true, .InterlockedIncrement64 .cProcessRefreshFull,
        .VmmProcessGet 4, .VmmWin_EnumerateEPROCESS 0x2000 true, .Ob_DECREF 0x2000,
        .LeechCore_GetOption_ADDR_MAX,
        .VmmWinObj_Refresh, .PluginManager_Notify .VMMDLL_PLUGIN_EVENT_REFRESH_PROCESS_TOTAL,
        .MmPfn_Refresh,
        .LeaveCriticalSection] ∧
    liveCtx.dev_paMax = 0x100000000 ∧
    (loopBody okTick.world 150 (installTickTable liveCtx)).ctx.dev_paMax = 0x200000000 ∧
    (loopBody okTick.world 150 (installTickTable liveCtx)).ctx.stat =
      { cProcessRefreshPartial := 0, cProcessRefreshFull := 1, cPhysRefreshCache := 1,
        cPageRefreshCache := 1, cTlbRefreshCache := 1 } :=
  have h := tick_actions_in_order okTick.world 150 (installTickTable liveCtx)
    { fPHYS := true, fTLB := true, fProcPartial := false, fProcTotal := true, fRegistry := false }
    (by decide) (by decide)
  ⟨by decide, h.1, h.2.1.trans (by decide), by decide, h.2.2.2.2.2.trans (by decide),
    (congrArg Ctx.stat h.2.2.1).trans (by decide)⟩

/-! ## Claims on the bootstrap -/

/-- C9: with a non-zero user-supplied paging root `cfg_paCR3`, when
`VmmInitialize` has succeeded so that auto-identification is attempted,
auto-identification fails and `VmmProcessCreateEntry` returns an entry,
`VmmProcInitialize` returns TRUE through `VmmProcUserCR3TryInitialize64`: it
makes one `VmmProcessCreateEntry` call with first argument TRUE, identifier 1,
parent 0, paging root `cfg_paCR3` and name `unknown_process`, then
`VmmProcessCreateFinish`, then one `VmmTlbSpider` on the entry and one
`Ob_DECREF` of it, and leaves `tpSystem = VMM_SYSTEM_UNKNOWN_X64` and
`kernel.paDTB = cfg_paCR3`. -/
theorem bootstrap_from_user_cr3 (x : World) (c : Ctx) (hcr3 : c.cfg_paCR3 ≠ 0)
    (hinit : x.VmmInitialize = true) (hauto : x.VmmWinInit_TryInitialize = false)
    (hentry : x.VmmProcessCreateEntry ≠ 0) :
    (VmmProcInitialize x c).ret = true ∧
    (VmmProcInitialize x c).trace =
      [.VmmInitialize, .VmmWinInit_TryInitialize c.cfg_paCR3,
        .VmmProcUserCR3TryInitialize64,
        .VmmInitializeMemoryModel .VMM_MEMORYMODEL_X64,
        .VmmProcessCreateEntry true 1 0 0 c.cfg_paCR3 0 "unknown_process" false 0 0,
        .VmmProcessCreateFinish,
        .VmmTlbSpider x.VmmProcessCreateEntry,
        .Ob_DECREF x.VmmProcessCreateEntry] ++
      (if (c.dev_fVolatile && !c.cfg_fDisableBackgroundRefresh) = true then [.CreateThread]
        else []) ∧
    (VmmProcInitialize x c).ctx.tpSystem = .VMM_SYSTEM_UNKNOWN_X64 ∧
    (VmmProcInitialize x c).ctx.kernel_paDTB = c.cfg_paCR3 := by
  have hu : VmmProcInitialize x c =
      call .VmmInitialize (call (.VmmWinInit_TryInitialize c.cfg_paCR3)
        ((VmmProcUserCR3TryInitialize64 x c).seq fun result c =>
          (startUpdater x result c).seq fun _ c =>
            ⟨result, { c with ThreadWorkers_fEnabled := true }, []⟩)) := by
    simp [VmmProcInitialize, hinit, hauto, hcr3]
  have hc : (VmmProcUserCR3TryInitialize64 x c).ctx =
      { c with tpSystem := .VMM_SYSTEM_UNKNOWN_X64, kernel_paDTB := c.cfg_paCR3 } := by
    rw [userCR3_ctx, if_neg hentry]
  have hr : (VmmProcUserCR3TryInitialize64 x c).ret = true := by
    rw [userCR3_ret]; simpa using hentry
  rw [hu]
  simp only [call_ret, call_trace, call_ctx, seq_ret, seq_trace, seq_ctx, hc, hr, userCR3_trace,
    if_neg hentry, startUpdater, ite_trace, ite_ctx, Bool.true_and]
  by_cases hv : (c.dev_fVolatile && !c.cfg_fDisableBackgroundRefresh) = true
  · simp only [hv, if_true]
    refine ⟨trivial, by simp, ?_, ?_⟩ <;> split_ifs <;> rfl
  · simp only [hv, if_false]
    refine ⟨trivial, by simp, rfl, rfl⟩

/-- Witness for C9: paging root `0x001AA000`, entry handle `0x1000`. -/
theorem bootstrap_from_user_cr3_witness :
    sampleCtx.cfg_paCR3 = 0x001AA000 ∧
    (VmmProcInitialize sampleWorld sampleCtx).ret = true ∧
    (VmmProcInitialize sampleWorld sampleCtx).trace =
      [.VmmInitialize, .VmmWinInit_TryInitialize 0x001AA000,
        .VmmProcUserCR3TryInitialize64,
        .VmmInitializeMemoryModel .VMM_MEMORYMODEL_X64,
        .VmmProcessCreateEntry true 1 0 0 0x001AA000 0 "unknown_process" false 0 0,
        .VmmProcessCreateFinish,
        .VmmTlbSpider 0x1000,
        .Ob_DECREF 0x1000] ∧
    (VmmProcInitialize sampleWorld sampleCtx).ctx.tpSystem = .VMM_SYSTEM_UNKNOWN_X64 ∧
    (VmmProcInitialize sampleWorld sampleCtx).ctx.kernel_paDTB = 0x001AA000 :=
  have h := bootstrap_from_user_cr3 sampleWorld sampleCtx (by decide) (by decide) (by decide)
    (by decide)
  ⟨by decide, h.1, h.2.1, h.2.2.1, h.2.2.2⟩

/-! ## Claims on the cadence tables -/

/-- C10: for each of the five domains the interval installed on a remote
backend differs from the one installed on a local backend, and is at least as
long in milliseconds (ticks times tick period). -/
theorem remote_table_differs_and_is_slower (c : Ctx) :
    ((installedTable true c).cTick_Phys ≠ (installedTable false c).cTick_Phys ∧
      (installedTable true c).cTick_TLB ≠ (installedTable false c).cTick_TLB ∧
      (installedTable true c).cTick_ProcPartial ≠ (installedTable false c).cTick_ProcPartial ∧
      (installedTable true c).cTick_ProcTotal ≠ (installedTable false c).cTick_ProcTotal ∧
      (installedTable true c).cTick_Registry ≠ (installedTable false c).cTick_Registry) ∧
    ((installedTable false c).cTick_Phys * (installedTable false c).cMs_TickPeriod ≤
        (installedTable true c).cTick_Phys * (installedTable true c).cMs_TickPeriod ∧
      (installedTable false c).cTick_TLB * (installedTable false c).cMs_TickPeriod ≤
        (installedTable true c).cTick_TLB * (installedTable true c).cMs_TickPeriod ∧
      (installedTable false c).cTick_ProcPartial * (installedTable false c).cMs_TickPeriod ≤
        (installedTable true c).cTick_ProcPartial * (installedTable true c).cMs_TickPeriod ∧
      (installedTable false c).cTick_ProcTotal * (installedTable false c).cMs_TickPeriod ≤
        (installedTable true c).cTick_ProcTotal * (installedTable true c).cMs_TickPeriod ∧
      (installedTable false c).cTick_Registry * (installedTable false c).cMs_TickPeriod ≤
        (installedTable true c).cTick_Registry * (installedTable true c).cMs_TickPeriod) := by
  simp only [installedTable, VmmProcCacheUpdaterThread, updaterLoop, installTickTable, if_true,
    Bool.false_eq_true, if_false]
  decide

/-! ## Claims on `VmmProcInitialize` -/

theorem startUpdater_trace (x : World) (result : Bool) (c : Ctx) :
    (startUpdater x result c).trace =
      if (result && c.dev_fVolatile && !c.cfg_fDisableBackgroundRefresh) = true then
        [.CreateThread] else [] := by
  simp only [startUpdater, seq_trace, call_trace, ite_trace, seq_ctx, seq_ret, call_ctx, call_ret]
  split_ifs <;> simp

theorem startUpdater_ThreadProcCache (x : World) (result : Bool) (c : Ctx) :
    (startUpdater x result c).ctx.ThreadProcCache =
      if (result && c.dev_fVolatile && !c.cfg_fDisableBackgroundRefresh) = true then
        { c.ThreadProcCache with
          fEnabled := decide (x.CreateThread ≠ 0), hThread := x.CreateThread }
      else c.ThreadProcCache := by
  simp only [startUpdater, seq_ctx, call_ctx, ite_ctx, seq_ret, call_ret]
  split_ifs with h1 h2 <;> simp_all

/-- The fallback leaves the device and configuration fields and the updater's
fields as they are. -/
theorem userCR3_frame (x : World) (c : Ctx) :
    (VmmProcUserCR3TryInitialize64 x c).ctx.dev_fVolatile = c.dev_fVolatile ∧
    (VmmProcUserCR3TryInitialize64 x c).ctx.cfg_fDisableBackgroundRefresh =
      c.cfg_fDisableBackgroundRefresh ∧
    (VmmProcUserCR3TryInitialize64 x c).ctx.ThreadProcCache = c.ThreadProcCache ∧
    (VmmProcUserCR3TryInitialize64 x c).ctx.stat = c.stat := by
  rw [userCR3_ctx]
  split_ifs <;> simp

/-- C11: `VmmProcInitialize` returns TRUE iff `VmmInitialize` succeeds and
either auto-identification succeeds, or it fails, the configured paging root is
non-zero and the user-CR3 fallback succeeds; and the fallback is entered iff
`VmmInitialize` succeeds, auto-identification fails and the configured paging
root is non-zero. -/
theorem initialize_succeeds_iff (x : World) (c : Ctx) :
    ((VmmProcInitialize x c).ret = true ↔
      x.VmmInitialize = true ∧
        (x.VmmWinInit_TryInitialize = true ∨
          (x.VmmWinInit_TryInitialize = false ∧ c.cfg_paCR3 ≠ 0 ∧
            (VmmProcUserCR3TryInitialize64 x c).ret = true))) ∧
    (Event.VmmProcUserCR3TryInitialize64 ∈ (VmmProcInitialize x c).trace ↔
      x.VmmInitialize = true ∧ x.VmmWinInit_TryInitialize = false ∧ c.cfg_paCR3 ≠ 0) ∧
    (Event.VmmWinInit_TryInitialize c.cfg_paCR3 ∈ (VmmProcInitialize x c).trace ↔
      x.VmmInitialize = true) := by
  simp only [VmmProcInitialize, call_ret, call_trace, seq_ret, seq_trace, seq_ctx, ite_ret,
    ite_trace, ite_ctx, startUpdater_trace, userCR3_trace, userCR3_ret]
  cases x.VmmInitialize <;> cases x.VmmWinInit_TryInitialize <;>
    by_cases h0 : c.cfg_paCR3 = 0 <;> by_cases h1 : x.VmmProcessCreateEntry = 0 <;>
    simp [h0, h1]

/-- Closed form of the updater's fields and of the thread creation after
`VmmProcInitialize`. -/
theorem initialize_updater (x : World) (c : Ctx) :
    (Event.CreateThread ∈ (VmmProcInitialize x c).trace ↔
      ((VmmProcInitialize x c).ret = true ∧ c.dev_fVolatile = true ∧
        c.cfg_fDisableBackgroundRefresh = false)) ∧
    (VmmProcInitialize x c).ctx.ThreadProcCache =
      if (VmmProcInitialize x c).ret = true ∧ c.dev_fVolatile = true ∧
          c.cfg_fDisableBackgroundRefresh = false then
        { c.ThreadProcCache with
          fEnabled := decide (x.CreateThread ≠ 0), hThread := x.CreateThread }
      else c.ThreadProcCache := by
  have hf := userCR3_frame x c
  simp only [VmmProcInitialize, call_ret, call_trace, call_ctx, seq_ret, seq_trace, seq_ctx,
    ite_ret, ite_trace, ite_ctx, startUpdater_trace, startUpdater_ThreadProcCache, userCR3_trace,
    userCR3_ret, hf.1, hf.2.1, hf.2.2.1]
  cases x.VmmInitialize <;> cases x.VmmWinInit_TryInitialize <;>
    by_cases h0 : c.cfg_paCR3 = 0 <;> by_cases h1 : x.VmmProcessCreateEntry = 0 <;>
    cases hv : c.dev_fVolatile <;> cases hd : c.cfg_fDisableBackgroundRefresh <;>
    simp [h0, h1, hf.1, hf.2.1, hf.2.2.1, hv, hd]

/-- C12: `VmmProcInitialize` calls `CreateThread` iff it returns TRUE on a
volatile backend with background refresh not disabled, and touches the
updater's enabled flag and thread handle in that case only; in particular they
are left as they were whenever it returns FALSE.  When the thread is created
the flag is TRUE and the handle is the new one; when `CreateThread` returns
NULL the flag is FALSE again. -/
theorem initialize_starts_updater (x : World) (c : Ctx) :
    (Event.CreateThread ∈ (VmmProcInitialize x c).trace ↔
      ((VmmProcInitialize x c).ret = true ∧ c.dev_fVolatile = true ∧
        c.cfg_fDisableBackgroundRefresh = false)) ∧
    (Event.CreateThread ∉ (VmmProcInitialize x c).trace →
      (VmmProcInitialize x c).ctx.ThreadProcCache = c.ThreadProcCache) ∧
    ((VmmProcInitialize x c).ret = false →
      Event.CreateThread ∉ (VmmProcInitialize x c).trace ∧
      (VmmProcInitialize x c).ctx.ThreadProcCache.fEnabled = c.ThreadProcCache.fEnabled ∧
      (VmmProcInitialize x c).ctx.ThreadProcCache.hThread = c.ThreadProcCache.hThread) ∧
    (Event.CreateThread ∈ (VmmProcInitialize x c).trace → x.CreateThread ≠ 0 →
      (VmmProcInitialize x c).ctx.ThreadProcCache.fEnabled = true ∧
      (VmmProcInitialize x c).ctx.ThreadProcCache.hThread = x.CreateThread) ∧
    (Event.CreateThread ∈ (VmmProcInitialize x c).trace → x.CreateThread = 0 →
      (VmmProcInitialize x c).ctx.ThreadProcCache.fEnabled = false ∧
      (VmmProcInitialize x c).ctx.ThreadProcCache.hThread = 0) := by
  obtain ⟨h1, h2⟩ := initialize_updater x c
  refine ⟨h1, ?_, ?_, ?_, ?_⟩
  · intro hn
    rw [h2, if_neg (fun h => hn (h1.2 h))]
  · intro hr
    have hn : ¬ ((VmmProcInitialize x c).ret = true ∧ c.dev_fVolatile = true ∧
        c.cfg_fDisableBackgroundRefresh = false) := by
      rw [hr]; simp
    refine ⟨fun h => hn (h1.1 h), ?_, ?_⟩ <;> rw [h2, if_neg hn]
  · intro hs hx
    rw [h2, if_pos (h1.1 hs)]
    simp [hx]
  · intro hs hx
    rw [h2, if_pos (h1.1 hs)]
    simp [hx]

/-- Witness for C12: no OS is identified and no paging root is configured on
a volatile backend. -/
theorem initialize_starts_updater_witness :
    (VmmProcInitialize sampleWorld { sampleCtx with cfg_paCR3 := 0, dev_fVolatile := true }).ret =
      false ∧
    Event.CreateThread ∉
      (VmmProcInitialize sampleWorld
        { sampleCtx with cfg_paCR3 := 0, dev_fVolatile := true }).trace ∧
    (VmmProcInitialize sampleWorld
      { sampleCtx with cfg_paCR3 := 0, dev_fVolatile := true }).ctx.ThreadProcCache.fEnabled =
        false ∧
    (VmmProcInitialize sampleWorld
      { sampleCtx with cfg_paCR3 := 0, dev_fVolatile := true }).ctx.ThreadProcCache.hThread = 0 :=
  have h := (initialize_starts_updater sampleWorld
    { sampleCtx with cfg_paCR3 := 0, dev_fVolatile := true }).2.2.1 (by decide)
  ⟨by decide, h.1, h.2.1, h.2.2⟩

/-! ## Claims on `VmmProc_RefreshProcesses` -/

theorem refresh_stat (x : World) (b : Bool) (c : Ctx) :
    (VmmProc_RefreshProcesses x b c).ctx.stat =
      c.stat.incr (if b = true then .cProcessRefreshFull else .cProcessRefreshPartial) := by
  cases b
  · simp only [VmmProc_RefreshProcesses, refreshWindows, seq_ctx, seq_ret, call_ctx, call_ret,
      ite_ctx, ite_ret]
    split_ifs <;> simp_all [Ctx.incr]
  · simp only [VmmProc_RefreshProcesses, refreshWindows, seq_ctx, seq_ret, call_ctx, call_ret,
      ite_ctx, ite_ret, userCR3_ctx]
    split_ifs <;> simp_all [Ctx.incr]

theorem refresh_ret (x : World) (b : Bool) (c : Ctx) :
    (VmmProc_RefreshProcesses x b c).ret =
      !decide ((c.tpSystem = .VMM_SYSTEM_WINDOWS_X64 ∨ c.tpSystem = .VMM_SYSTEM_WINDOWS_X86) ∧
        x.VmmProcessGet 4 = 0) := by
  cases b
  · simp only [VmmProc_RefreshProcesses, refreshWindows, seq_ctx, seq_ret, call_ctx, call_ret,
      ite_ctx, ite_ret]
    split_ifs <;> simp_all
  · simp only [VmmProc_RefreshProcesses, refreshWindows, seq_ctx, seq_ret, call_ctx, call_ret,
      ite_ctx, ite_ret, userCR3_ctx]
    split_ifs <;> simp_all

/-- C16: `VmmProc_RefreshProcesses` returns FALSE iff the system type is
Windows x64 or x86 and `VmmProcessGet(4)` returns NULL, whatever
`VmmWin_EnumerateEPROCESS` and the user-CR3 re-initialisation return; and the
call adds one (in 64-bit arithmetic) to `cProcessRefreshFull` when
`fRefreshTotal` is TRUE, to `cProcessRefreshPartial` when it is FALSE, leaving
every other counter as it was. -/
theorem refresh_fails_iff_system_process_missing (x : World) (fRefreshTotal : Bool) (c : Ctx) :
    ((VmmProc_RefreshProcesses x fRefreshTotal c).ret = false ↔
      ((c.tpSystem = .VMM_SYSTEM_WINDOWS_X64 ∨ c.tpSystem = .VMM_SYSTEM_WINDOWS_X86) ∧
        x.VmmProcessGet 4 = 0)) ∧
    (VmmProc_RefreshProcesses x fRefreshTotal c).ctx.stat.cProcessRefreshFull =
      (if fRefreshTotal = true then (c.stat.cProcessRefreshFull + 1) % 2 ^ 64
        else c.stat.cProcessRefreshFull) ∧
    (VmmProc_RefreshProcesses x fRefreshTotal c).ctx.stat.cProcessRefreshPartial =
      (if fRefreshTotal = true then c.stat.cProcessRefreshPartial
        else (c.stat.cProcessRefreshPartial + 1) % 2 ^ 64) ∧
    (VmmProc_RefreshProcesses x fRefreshTotal c).ctx.stat.cPhysRefreshCache =
      c.stat.cPhysRefreshCache ∧
    (VmmProc_RefreshProcesses x fRefreshTotal c).ctx.stat.cPageRefreshCache =
      c.stat.cPageRefreshCache ∧
    (VmmProc_RefreshProcesses x fRefreshTotal c).ctx.stat.cTlbRefreshCache =
      c.stat.cTlbRefreshCache ∧
    (VmmProc_RefreshProcesses x fRefreshTotal c).trace.count
        (.InterlockedIncrement64 .cProcessRefreshFull) +
      (VmmProc_RefreshProcesses x fRefreshTotal c).trace.count
        (.InterlockedIncrement64 .cProcessRefreshPartial) = 1 := by
  refine ⟨?_, ?_, ?_, ?_, ?_, ?_, ?_⟩
  · rw [refresh_ret]; simp only [Bool.not_eq_false', decide_eq_true_eq]
  all_goals try (rw [refresh_stat]; cases fRefreshTotal <;> simp [Stat.incr, incr64])
  rw [refresh_trace, userCR3_trace]
  cases fRefreshTotal <;> simp [List.count_cons] <;> split_ifs <;> simp

/-! ## Claims on the lock -/

/-- C15 as stated fails: on tick 1 of the local table no flag is true, yet
the loop body takes the lock. -/
theorem lock_taken_with_nothing_due :
    dueFlags (installTickTable liveCtx).ThreadProcCache 1 =
      some { fPHYS := false, fTLB := false, fProcPartial := false, fProcTotal := false,
             fRegistry := false } ∧
    Event.EnterCriticalSection ∈ (loopBody okTick.world 1 (installTickTable liveCtx)).trace := by
  decide

/-- C15 amended: on every tick whose flags are computed the loop body takes
the lock exactly once and releases it exactly once, whether or not anything is
due (when the flags are not computed it does neither); and on a tick where no
flag is true its only calls are `Sleep`, `EnterCriticalSection` and
`LeaveCriticalSection`. -/
theorem lock_taken_every_tick (x : World) (i : Nat) (c : Ctx) :
    (∀ f, dueFlags c.ThreadProcCache i = some f →
      (loopBody x i c).trace.count .EnterCriticalSection = 1 ∧
      (loopBody x i c).trace.count .LeaveCriticalSection = 1 ∧
      ((f.fPHYS = false ∧ f.fTLB = false ∧ f.fProcPartial = false ∧ f.fProcTotal = false ∧
          f.fRegistry = false) →
        (loopBody x i c).trace =
          [.Sleep c.ThreadProcCache.cMs_TickPeriod, .EnterCriticalSection,
            .LeaveCriticalSection])) ∧
    (dueFlags c.ThreadProcCache i = none →
      (loopBody x i c).trace = [.Sleep c.ThreadProcCache.cMs_TickPeriod]) := by
  refine ⟨fun f h => ?_, fun h => by simp [loopBody, h]⟩
  have hb := loopBody_balanced x i c
  have hE : (loopBody x i c).trace.count .EnterCriticalSection = 1 := by
    rw [loopBody_trace x i c f h]
    have h1 := physBlock_counts f c
    have h2 := tlbBlock_counts f (physBlock f c).ctx
    have h3 := procBlock_counts x f (tlbBlock f (physBlock f c).ctx).ctx
    simp only [List.count_cons, List.count_append, h1.1, h2.1, h3.1]
    cases (procBlock x f (tlbBlock f (physBlock f c).ctx).ctx).ret <;> cases f.fRegistry <;> simp
  refine ⟨hE, hb ▸ hE, ?_⟩
  rintro ⟨h1, h2, h3, h4, h5⟩
  rw [loopBody_trace x i c f h, physBlock_trace, tlbBlock_trace, procBlock_trace, procBlock_ret]
  simp [h1, h2, h3, h4, h5]

/-- Witness for C15 amended: tick 1 of the local table. -/
theorem lock_taken_every_tick_witness :
    (loopBody okTick.world 1 (installTickTable liveCtx)).trace.count .EnterCriticalSection = 1 ∧
    (loopBody okTick.world 1 (installTickTable liveCtx)).trace.count .LeaveCriticalSection = 1 ∧
    (loopBody okTick.world 1 (installTickTable liveCtx)).trace =
      [.Sleep 100, .EnterCriticalSection, .LeaveCriticalSection] :=
  have h := (lock_taken_every_tick okTick.world 1 (installTickTable liveCtx)).1
    { fPHYS := false, fTLB := false, fProcPartial := false, fProcTotal := false,
      fRegistry := false } (by decide)
  ⟨h.1, h.2.1, h.2.2 ⟨rfl, rfl, rfl, rfl, rfl⟩⟩

/-! ## Claims on the built-in tables -/

theorem refresh_trace_head (x : World) (b : Bool) (c : Ctx) :
    ∃ t, (VmmProc_RefreshProcesses x b c).trace = .VmmProc_RefreshProcesses b :: t :=
  ⟨_, rfl⟩

/-- The flags of a tick under either built-in table. -/
theorem dueFlags_installed (c : Ctx) (i : Nat) :
    dueFlags (installTickTable c).ThreadProcCache i =
      some (if c.dev_fRemote = true then
          { fPHYS := i % 150 == 0, fTLB := i % 1800 == 0,
            fProcPartial := i % 150 == 0 && !(i % 1800 == 0), fProcTotal := i % 1800 == 0,
            fRegistry := i % 6000 == 0 }
        else
          { fPHYS := i % 5 == 0, fTLB := i % 50 == 0,
            fProcPartial := i % 50 == 0 && !(i % 150 == 0), fProcTotal := i % 150 == 0,
            fRegistry := i % 3000 == 0 }) := by
  cases h : c.dev_fRemote <;>
    simp [installTickTable, h, dueFlags, cmod, VMMPROC_UPDATERTHREAD_LOCAL_PERIOD,
      VMMPROC_UPDATERTHREAD_LOCAL_PHYSCACHE, VMMPROC_UPDATERTHREAD_LOCAL_TLB,
      VMMPROC_UPDATERTHREAD_LOCAL_PROC_REFRESHLIST, VMMPROC_UPDATERTHREAD_LOCAL_PROC_REFRESHTOTAL,
      VMMPROC_UPDATERTHREAD_LOCAL_REGISTRY, VMMPROC_UPDATERTHREAD_REMOTE_PERIOD,
      VMMPROC_UPDATERTHREAD_REMOTE_PHYSCACHE, VMMPROC_UPDATERTHREAD_REMOTE_TLB,
      VMMPROC_UPDATERTHREAD_REMOTE_PROC_REFRESHLIST,
      VMMPROC_UPDATERTHREAD_REMOTE_PROC_REFRESHTOTAL, VMMPROC_UPDATERTHREAD_REMOTE_REGISTRY]

/-- Under either built-in table a due process refresh implies a due
physical-cache clear, and a due total refresh implies a due TLB clear. -/
theorem dueFlags_installed_imp (c : Ctx) (i : Nat) (f : Flags)
    (h : dueFlags (installTickTable c).ThreadProcCache i = some f) :
    ((f.fProcPartial = true ∨ f.fProcTotal = true) → f.fPHYS = true) ∧
    (f.fProcTotal = true → f.fTLB = true) := by
  rw [dueFlags_installed] at h
  have hf := (Option.some.inj h).symm
  subst hf
  cases c.dev_fRemote <;> simp <;> omega

theorem trace_split (a b m : Event) (p q t u v : List Event) :
    a :: b :: (p ++ (q ++ ((m :: t ++ u) ++ v))) = (a :: b :: (p ++ q)) ++ m :: (t ++ u ++ v) := by
  simp

/-- C17: with either built-in table no interval is zero, the total interval
is a multiple of the physical, TLB and partial intervals and the partial
interval a multiple of the physical one; so on every tick the flags are
computed, and when a process refresh is due the physical-page and
paging-structure caches are cleared before `VmmProc_RefreshProcesses` is
entered on that pass through the loop body, and on a total refresh the TLB
cache as well. -/
theorem builtin_tables_clear_before_refresh (x : World) (i : Nat) (c : Ctx) :
    ((installTickTable c).ThreadProcCache.cTick_Phys ≠ 0 ∧
      (installTickTable c).ThreadProcCache.cTick_TLB ≠ 0 ∧
      (installTickTable c).ThreadProcCache.cTick_ProcPartial ≠ 0 ∧
      (installTickTable c).ThreadProcCache.cTick_ProcTotal ≠ 0 ∧
      (installTickTable c).ThreadProcCache.cTick_Registry ≠ 0) ∧
    ((installTickTable c).ThreadProcCache.cTick_Phys ∣
        (installTickTable c).ThreadProcCache.cTick_ProcTotal ∧
      (installTickTable c).ThreadProcCache.cTick_TLB ∣
        (installTickTable c).ThreadProcCache.cTick_ProcTotal ∧
      (installTickTable c).ThreadProcCache.cTick_ProcPartial ∣
        (installTickTable c).ThreadProcCache.cTick_ProcTotal ∧
      (installTickTable c).ThreadProcCache.cTick_Phys ∣
        (installTickTable c).ThreadProcCache.cTick_ProcPartial) ∧
    ∃ f, dueFlags (installTickTable c).ThreadProcCache i = some f ∧
      ((f.fProcPartial = true ∨ f.fProcTotal = true) →
        ∃ pre post, (loopBody x i (installTickTable c)).trace =
            pre ++ .VmmProc_RefreshProcesses f.fProcTotal :: post ∧
          Event.VmmCacheClear .VMM_CACHE_TAG_PHYS ∈ pre ∧
          Event.VmmCacheClear .VMM_CACHE_TAG_PAGING ∈ pre ∧
          (f.fProcTotal = true → Event.VmmCacheClear .VMM_CACHE_TAG_TLB ∈ pre)) := by
  refine ⟨?_, ?_, ?_⟩
  · cases h : c.dev_fRemote <;> simp [installTickTable, h] <;> decide
  · cases h : c.dev_fRemote <;> simp [installTickTable, h] <;> decide
  · obtain ⟨f, hf⟩ : ∃ f, dueFlags (installTickTable c).ThreadProcCache i = some f :=
      ⟨_, dueFlags_installed c i⟩
    refine ⟨f, hf, fun hdue => ?_⟩
    obtain ⟨himp1, himp2⟩ := dueFlags_installed_imp c i f hf
    have hphys := himp1 hdue
    obtain ⟨t, ht⟩ := refresh_trace_head x f.fProcTotal
      (tlbBlock f (physBlock f (installTickTable c)).ctx).ctx
    have hd : (f.fProcPartial || f.fProcTotal) = true := by
      rcases hdue with h | h <;> simp [h]
    rw [loopBody_trace x i _ f hf, physBlock_trace, tlbBlock_trace, procBlock_trace, if_pos hd,
      if_pos hphys, ht]
    refine ⟨_, _, trace_split _ _ _ _ _ _ _ _, ?_, ?_, fun htot => ?_⟩
    · simp
    · simp
    · simp [himp2 htot]

/-- Witness for C17: tick 150 of the local table, a total refresh. -/
theorem builtin_tables_clear_before_refresh_witness :
    dueFlags (installTickTable liveCtx).ThreadProcCache 150 =
      some { fPHYS := true, fTLB := true, fProcPartial := false, fProcTotal := true,
             fRegistry := false } ∧
    ∃ f, dueFlags (installTickTable liveCtx).ThreadProcCache 150 = some f ∧
      ((f.fProcPartial = true ∨ f.fProcTotal = true) →
        ∃ pre post, (loopBody okTick.world 150 (installTickTable liveCtx)).trace =
            pre ++ .VmmProc_RefreshProcesses f.fProcTotal :: post ∧
          Event.VmmCacheClear .VMM_CACHE_TAG_PHYS ∈ pre ∧
          Event.VmmCacheClear .VMM_CACHE_TAG_PAGING ∈ pre ∧
          (f.fProcTotal = true → Event.VmmCacheClear .VMM_CACHE_TAG_TLB ∈ pre)) :=
  ⟨by decide, (builtin_tables_clear_before_refresh okTick.world 150 liveCtx).2.2⟩

/-! ## Claims on the registry -/

theorem emptyRegistry_WF : emptyRegistry.WF := by
  simp [Registry.WF, emptyRegistry]

theorem create_entry_WF (r : Registry) (a : CreateArgs) (h : r.WF) : (create_entry r a).2.WF := by
  unfold create_entry
  split_ifs with hc
  · exact h
  · obtain ⟨h1, h2, h3⟩ := h
    simp only [not_or, Bool.not_eq_false, List.any_eq_true, beq_iff_eq, not_exists, not_and] at hc
    refine ⟨fun e he => Nat.le_succ_of_le (h1 e he), ?_, ?_⟩
    · intro e he
      simp only [List.mem_cons] at he
      rcases he with rfl | he
      · exact le_refl _
      · exact Nat.le_succ_of_le (h2 e he)
    · simp only [List.map_cons, List.nodup_cons, List.mem_map, not_exists, not_and]
      exact ⟨fun e he => hc.2 e he, h3⟩

theorem finish_generation_WF (r : Registry) (h : r.WF) : (finish_generation r).WF := by
  obtain ⟨_, h2, _⟩ := h
  refine ⟨?_, ?_, ?_⟩
  · intro e he
    simp only [finish_generation, List.mem_map] at he
    obtain ⟨e', he', rfl⟩ := he
    exact h2 e' he'
  · simp [finish_generation]
  · simp [finish_generation]

theorem create_many_WF (as : List CreateArgs) : ∀ r : Registry, r.WF → (create_many r as).WF := by
  induction as with
  | nil => intro r h; exact h
  | cons a as ih => intro r h; exact ih _ (create_entry_WF r a h)

theorem create_many_live (as : List CreateArgs) :
    ∀ r : Registry, (create_many r as).live = r.live := by
  induction as with
  | nil => intro r; rfl
  | cons a as ih =>
    intro r
    simp only [create_many, ih]
    unfold create_entry
    split_ifs <;> rfl

theorem create_entry_pending_mem (r : Registry) (a : CreateArgs) (e : ProcessEntry)
    (he : e ∈ r.pending) : e ∈ (create_entry r a).2.pending := by
  unfold create_entry
  split_ifs
  · exact he
  · exact List.mem_cons_of_mem _ he

theorem create_many_pending_mem (as : List CreateArgs) :
    ∀ (r : Registry) (e : ProcessEntry), e ∈ r.pending → e ∈ (create_many r as).pending := by
  induction as with
  | nil => intro r e he; exact he
  | cons a as ih => intro r e he; exact ih _ e (create_entry_pending_mem r a e he)

/-- In a list with pairwise distinct identifiers, the search by identifier
finds the entry that carries it. -/
theorem find_of_nodup (l : List ProcessEntry) (e : ProcessEntry) (he : e ∈ l)
    (hn : (l.map fun e => e.dwPID).Nodup) :
    (l.find? fun x => x.dwPID == e.dwPID) = some e := by
  induction l with
  | nil => simp at he
  | cons x xs ih =>
    simp only [List.map_cons, List.nodup_cons, List.mem_map, not_exists, not_and] at hn
    simp only [List.mem_cons] at he
    rcases he with rfl | he
    · simp
    · have hne : x.dwPID ≠ e.dwPID := fun h => hn.1 e he h.symm
      rw [List.find?_cons_of_neg _ (by simpa using hne)]
      exact ih he hn.2

theorem find_map_clear (l : List ProcessEntry) (pid : Nat) :
    ((l.map fun e => { e with fUnderConstruction := false }).find? fun x => x.dwPID == pid) =
      (l.find? fun x => x.dwPID == pid).map fun e => { e with fUnderConstruction := false } := by
  induction l with
  | nil => rfl
  | cons x xs ih =>
    simp only [List.map_cons, List.find?_cons]
    by_cases h : x.dwPID = pid
    · have hb : (x.dwPID == pid) = true := by simpa using h
      simp [hb]
    · have hb : (x.dwPID == pid) = false := by simpa using h
      simp [hb, ih]

/-- C14: an entry created by `create_entry` is not returned by `lookup` for
its identifier before `finish_generation`, whatever further entries are
created in between, and is returned by `lookup` for its identifier after
`finish_generation`. -/
theorem created_entry_visible_after_finish (r r' : Registry) (a : CreateArgs) (h : Nat)
    (more : List CreateArgs) (hwf : r.WF) (hc : create_entry r a = (some h, r')) :
    lookup (create_many r' more) a.dwPID ≠ some h ∧
    lookup (finish_generation (create_many r' more)) a.dwPID = some h := by
  have hwf' : r'.WF := by
    have := create_entry_WF r a hwf
    rw [hc] at this; exact this
  unfold create_entry at hc
  split_ifs at hc with hfail
  · simp at hc
  simp only [Prod.mk.injEq, Option.some.injEq] at hc
  obtain ⟨hh, hr⟩ := hc
  constructor
  · intro hl
    unfold lookup at hl
    rw [create_many_live, ← hr] at hl
    simp only [Option.map_eq_some'] at hl
    obtain ⟨e, he, heq⟩ := hl
    have hmem := List.mem_of_find?_eq_some he
    have := hwf.1 e hmem
    omega
  · have hmem : (⟨h, a.fUserSupplied, a.dwPID, a.dwPPID, a.paDTB, a.szName, true⟩ : ProcessEntry) ∈
        (create_many r' more).pending := by
      apply create_many_pending_mem
      rw [← hr, ← hh]
      exact List.mem_cons_self _ _
    have hn := (create_many_WF more r' hwf').2.2
    have hf := find_of_nodup _ _ hmem hn
    simp only at hf
    simp only [lookup, finish_generation, find_map_clear, hf, Option.map_some']

/-- Witness for C14: the entry `unknown_process` with identifier 1 created in
the empty registry. -/
theorem created_entry_visible_after_finish_witness :
    create_entry emptyRegistry unknownProcessArgs = (some 1, (create_entry emptyRegistry
      unknownProcessArgs).2) ∧
    lookup (create_entry emptyRegistry unknownProcessArgs).2 1 = none ∧
    lookup (create_many (create_entry emptyRegistry unknownProcessArgs).2 []) 1 ≠ some 1 ∧
    lookup (finish_generation (create_many (create_entry emptyRegistry unknownProcessArgs).2 []))
      1 = some 1 :=
  have h := created_entry_visible_after_finish emptyRegistry
    (create_entry emptyRegistry unknownProcessArgs).2 unknownProcessArgs 1 [] emptyRegistry_WF
    (by decide)
  ⟨by decide, by decide, h.1, h.2⟩

/-! ## Claims on the entry guard -/

/-- When `cbOffset + 8` does not wrap, an input that fails one of the entry
conditions is rejected before any dereference. -/
theorem verify_rejects_without_reading (pb : Mem) (cb cbOffset : Nat)
    (hw : cbOffset + 8 < 2 ^ 64)
    (h : cb % 8 ≠ 0 ∨ cb < 0x500 ∨ cbOffset < 0x500 ∨ cb < cbOffset + 8) :
    VmmProcPHYS_VerifyWindowsEPROCESS pb cb cbOffset = (some none, []) := by
  have hq : qadd cbOffset 8 = cbOffset + 8 := by
    unfold qadd; exact Nat.mod_eq_of_lt hw
  unfold VmmProcPHYS_VerifyWindowsEPROCESS
  rw [hq, and_low3]
  split_ifs with h1 h2
  · rfl
  · rfl
  · exfalso
    simp only [not_or, not_lt, ne_eq, not_not] at h1 h2
    omega

set_option maxRecDepth 100000 in
/-- C13 at a failing input: with `cb = 0x500` and `cbOffset = 0xFFFFFFFFFFFFFFF8`
the sum `cbOffset + 8` exceeds `cb`, yet it wraps to `0` in the guard, the
function dereferences `pb + cbOffset`, and with the signature and a header
found there it returns TRUE. -/
theorem verify_guard_wraps :
    0x500 < 0xFFFFFFFFFFFFFFF8 + 8 ∧
    (VmmProcPHYS_VerifyWindowsEPROCESS zeroMem 0x500 0xFFFFFFFFFFFFFFF8).2 =
      [⟨0xFFFFFFFFFFFFFFF8, 8⟩] ∧
    (VmmProcPHYS_VerifyWindowsEPROCESS wrapMem 0x500 0xFFFFFFFFFFFFFFF8).1 =
      some (some 0x001AA000) := by
  refine ⟨by decide, by decide, by decide⟩

end VmmProc
